import Mathlib

/-!
Verification of the infrastructure-provisioning subsystem of the
clawd-backend repository: a shallow embedding of
`infrastructure_manager.py` (port allocator, database provisioner,
service manager, nginx configurator, deployment verifier, DNS
provisioner, `InfrastructureManager.provision_all` / `_rollback` /
`teardown`) and of the cleanup helpers of `app.py`
(`cleanup_pm2_services`, `cleanup_nginx_config`,
`cleanup_ssl_certificates`, `cleanup_dns_records`,
`cleanup_postgresql_database`, `cleanup_project_directory`,
`cleanup_infrastructure`).

External effects (subprocess invocations, file-system operations, DNS
API calls, TCP probes) are modelled by an explicit environment `Env`
that fixes the outcome of each kind of call, and every modelled
function additionally returns the list of external actions (`Event`s)
it performed, in order.  Python exceptions are modelled by `Option`
results (`none` = the call raised) where the source lets them escape,
and are folded into boolean/err outcomes where the source catches them.
-/

set_option maxHeartbeats 1000000

/-- Outcome of one external call (`subprocess.run` and similar):
`ok` = completed with returncode 0, `err` = completed with a nonzero
returncode, `timeout` = raised `subprocess.TimeoutExpired`,
`exn` = raised some other exception. -/
inductive CallOut where
  | ok
  | err
  | timeout
  | exn
deriving DecidableEq, Repr

/-- True when the call completed with returncode 0. -/
def CallOut.isOk : CallOut → Bool
  | CallOut.ok => true
  | _ => false

/-- True when the call completed (returned a result object) rather than
raising: Python code that never inspects `returncode` observes only
this. -/
def CallOut.completed : CallOut → Bool
  | CallOut.ok => true
  | CallOut.err => true
  | _ => false

/-- One observable external action of the provisioning code.  Each
constructor corresponds to one concrete effect in the source:
`pm2Start name` = `subprocess.run(["pm2", "start", <config of name>])`,
`execSql sql` = `docker exec <container> psql ... -c sql`
(`DatabaseProvisioner._execute_sql`), `execSqlStdin sql` = `docker exec
-i ... psql` fed `sql` on stdin (`app.cleanup_postgresql_database`),
`nginxTest` = `["nginx", "-t"]`, `nginxReload` = `["nginx", "-s",
"reload"]`, `systemctlReloadNginx` = `["systemctl", "reload", "nginx"]`,
`writeFile p` = `Path(p).write_text(...)`, `unlinkFile p` =
`Path(p).unlink()`, `symlinkFile p` = `Path(p).symlink_to(...)`,
`rmFileCmd p` = `["rm", "-f", p]`, `rmTreeCmd p` = `["rm", "-rf", p]`,
`rmTreePy p` = `shutil.rmtree(p)`, `checkPort` = a raw TCP connect,
`httpGet` = `urllib.request.urlopen`, `dnsCheck sub` = the
hostinger-dns `check_subdomain_existence` call, `dnsCreate` = its
`create_a_record` call, `dnsDelete` = its `delete_dns_record` call, and
`releasePort p` = `PortAllocator.used_ports.discard(p)`. -/
inductive Event where
  | pm2Start (name : String)
  | pm2Stop (name : String)
  | pm2Delete (name : String)
  | pm2Save
  | execSql (sql : String)
  | execSqlStdin (sql : String)
  | nginxTest
  | nginxReload
  | systemctlReloadNginx
  | writeFile (path : String)
  | unlinkFile (path : String)
  | symlinkFile (path : String)
  | rmFileCmd (path : String)
  | rmTreeCmd (path : String)
  | rmTreePy (path : String)
  | checkPort (port : Nat)
  | httpGet (port : Nat) (path : String)
  | dnsCheck (subdomain : String)
  | dnsCreate (subdomain : String) (domain : String) (ip : String) (ttl : Nat)
  | dnsDelete (name : String)
  | releasePort (port : Nat)
deriving DecidableEq, Repr

/-- True for the DNS-touching actions (existence check, record creation,
record deletion). -/
def Event.isDns : Event → Bool
  | Event.dnsCheck _ => true
  | Event.dnsCreate _ _ _ _ => true
  | Event.dnsDelete _ => true
  | _ => false

/-- True for a `pm2 start` action. -/
def Event.isPm2Start : Event → Bool
  | Event.pm2Start _ => true
  | _ => false

/-- True for an nginx enable-symlink creation. -/
def Event.isSymlinkFile : Event → Bool
  | Event.symlinkFile _ => true
  | _ => false

/-- True for a port release (`used_ports.discard`). -/
def Event.isReleasePort : Event → Bool
  | Event.releasePort _ => true
  | _ => false

/-- True for a DNS A-record creation. -/
def Event.isDnsCreate : Event → Bool
  | Event.dnsCreate _ _ _ _ => true
  | _ => false

/-- Metadata record read by `InfrastructureManager.teardown` from
`project.json` (`metadata.get("service_name")` etc.; a `none` field
models a missing key). -/
structure InfraMeta where
  service_name : Option String
  frontend_app_name : Option String
  ports_frontend : Option Nat
  ports_backend : Option Nat
deriving DecidableEq, Repr

/-- The JSON value of the `"database"` key of `project.json` as
`app.cleanup_infrastructure` may encounter it: absent, an empty dict
`{}` (falsy in the legacy fallback), a nonempty dict (`name` / `user`
hold the values of `.get("name", "")` / `.get("user", "")`), or the
legacy plain string form. -/
inductive MetaDatabase where
  | absent
  | emptyDict
  | dict (name user : String)
  | str (s : String)
deriving DecidableEq, Repr

/-- Metadata read by `app.cleanup_infrastructure` from `project.json`.
A `""` value models a missing key (every `.get` in that function
defaults to `""` or to an empty dict).  The `"domains"` key is
modelled in its dict form, the shape `_save_metadata` builds;
`frontend_domain` / `backend_domain` are the legacy top-level string
keys; the `"database"` key keeps its full dynamic range via
`MetaDatabase` because its string form changes control flow (see
`cleanup_db_fields`). -/
structure ProjectMeta where
  project_name : String
  domains_frontend : String
  domains_backend : String
  database : MetaDatabase
  frontend_domain : String
  backend_domain : String
deriving DecidableEq, Repr

/-- The deterministic environment fixing the outcome of every external
interaction.  Call-outcome fields are indexed by the argument that
distinguishes call sites (service name, file path, SQL text,
subdomain), so distinct calls of the same kind may succeed or fail
independently. -/
structure Env where
  /-- `os.path.exists` / `Path.exists` for the given path. -/
  pathExists : String → Bool
  /-- content returned by `Path(p).read_text()`. -/
  readFile : String → String
  /-- whether `Path(p).write_text(...)` succeeds (`false` = raises). -/
  writeOk : String → Bool
  /-- whether `Path(p).unlink()` succeeds (`false` = raises). -/
  unlinkOk : String → Bool
  /-- whether `Path(p).symlink_to(...)` succeeds (`false` = raises). -/
  symlinkOk : String → Bool
  /-- whether `shutil.rmtree(p)` succeeds (`false` = raises). -/
  rmtreeOk : String → Bool
  /-- `pm2 start` outcome for the given app name. -/
  pm2Start : String → CallOut
  /-- `pm2 stop` outcome for the given app name. -/
  pm2Stop : String → CallOut
  /-- `pm2 delete` outcome for the given app name. -/
  pm2Delete : String → CallOut
  /-- `pm2 save` outcome. -/
  pm2Save : CallOut
  /-- outcome of `docker exec ... psql -c <sql>` for the given text. -/
  sqlExec : String → CallOut
  /-- stdout of that call when it completes. -/
  sqlStdout : String → String
  /-- outcome of `docker exec -i ... psql` fed `<sql>` on stdin. -/
  sqlStdin : String → CallOut
  /-- outcome of `nginx -t`. -/
  nginxTest : CallOut
  /-- outcome of `nginx -s reload`. -/
  nginxReload : CallOut
  /-- outcome of `systemctl reload nginx`. -/
  systemctlReload : CallOut
  /-- outcome of `rm -f <path>`. -/
  rmFile : String → CallOut
  /-- outcome of `rm -rf <path>`. -/
  rmTree : String → CallOut
  /-- whether a raw TCP connect to 127.0.0.1:<port> succeeds. -/
  portOpen : Nat → Bool
  /-- whether the health endpoint on <port> would answer
  `{"status": "ok"}` (unreachable in the source, see
  `check_health_endpoint`). -/
  healthStatusOk : Nat → Bool
  /-- outcome of the hostinger-dns existence check for a subdomain. -/
  dnsCheckCall : String → CallOut
  /-- whether that check's stdout reports the subdomain as existing. -/
  dnsFound : String → Bool
  /-- the IP the check's stdout reports, if any. -/
  dnsIp : String → Option String
  /-- outcome of the hostinger-dns A-record creation for a subdomain. -/
  dnsCreateCall : String → CallOut
  /-- outcome of the hostinger-dns record deletion for a name. -/
  dnsDeleteCall : String → CallOut
  /-- the password produced by `DatabaseProvisioner._generate_password`. -/
  genPassword : String
  /-- metadata parsed by `InfrastructureManager.teardown`. -/
  infraMeta : InfraMeta
  /-- whether `json.load` of `project.json` succeeds in
  `app.cleanup_infrastructure` (`false` = metadata stays `{}`). -/
  projectJsonParseOk : Bool
  /-- metadata parsed by `app.cleanup_infrastructure`. -/
  projectMeta : ProjectMeta

/- ## Module constants of infrastructure_manager.py -/

def POSTGRES_HOST : String := "localhost"

def POSTGRES_PORT : Nat := 5432

def FRONTEND_PORT_MIN : Nat := 3000

def FRONTEND_PORT_MAX : Nat := 4000

def BACKEND_PORT_MIN : Nat := 8010

def BACKEND_PORT_MAX : Nat := 9000

def BASE_DOMAIN : String := "dreambigwithai.com"

def NGINX_CONFIG_DIR : String := "/etc/nginx/sites-available"

def NGINX_ENABLED_DIR : String := "/etc/nginx/sites-enabled"

def SERVER_IP : String := "195.200.14.37"

def CLAWD_UI_DIST : String := "/root/clawd-ui/dist"

/-- Names bound at module scope of `infrastructure_manager.py` by its
imports: subprocess, sqlite3, random, string, logging, then Path from
pathlib and Optional/Dict/List/Tuple from typing.  The json module is
imported only inside `DeploymentVerifier.check_health_endpoint`, which
binds that function's local scope, not the module's. -/
def infraModuleImports : List String :=
  ["subprocess", "sqlite3", "random", "string", "logging", "Path",
   "Optional", "Dict", "List", "Tuple"]

/- ## PortAllocator -/

/-- The loop `for port in range(lo, lo + n): if port not in used: take
it` of `PortAllocator.allocate_frontend_port` /
`allocate_backend_port`: first port at or above `lo`, below `lo + n`,
not in the used-set. -/
def scanFrom (lo : Nat) (n : Nat) (used : Finset Nat) : Option Nat :=
  match n with
  | 0 => none
  | m + 1 => if lo ∈ used then scanFrom (lo + 1) m used else some lo

/-- `PortAllocator.allocate_frontend_port`: scans
`range(FRONTEND_PORT_MIN, FRONTEND_PORT_MAX)`, adds the first free
port to `used_ports` and returns it; `none` models the
`RuntimeError("No available frontend ports (3000-4000)")`. -/
def allocate_frontend_port (used_ports : Finset Nat) : Option (Nat × Finset Nat) :=
  match scanFrom FRONTEND_PORT_MIN (FRONTEND_PORT_MAX - FRONTEND_PORT_MIN) used_ports with
  | some port => some (port, insert port used_ports)
  | none => none

/-- `PortAllocator.allocate_backend_port`: scans
`range(BACKEND_PORT_MIN, BACKEND_PORT_MAX)`. -/
def allocate_backend_port (used_ports : Finset Nat) : Option (Nat × Finset Nat) :=
  match scanFrom BACKEND_PORT_MIN (BACKEND_PORT_MAX - BACKEND_PORT_MIN) used_ports with
  | some port => some (port, insert port used_ports)
  | none => none

/-- Python truthiness of the optional port arguments of
`PortAllocator.release_ports` (`if frontend_port:`): `None` and `0`
are falsy. -/
def pyTruthy : Option Nat → Bool
  | none => false
  | some p => decide (p ≠ 0)

/-- `PortAllocator.release_ports`: `used_ports.discard(port)` for each
truthy argument. -/
def release_ports (frontend_port backend_port : Option Nat) (used : Finset Nat) : Finset Nat :=
  let used1 := if pyTruthy frontend_port then used.erase (frontend_port.getD 0) else used
  if pyTruthy backend_port then used1.erase (backend_port.getD 0) else used1

/-- The release actions logged by `release_ports`, one per truthy
argument. -/
def release_ports_events (frontend_port backend_port : Option Nat) : List Event :=
  (if pyTruthy frontend_port then [Event.releasePort (frontend_port.getD 0)] else [])
    ++ (if pyTruthy backend_port then [Event.releasePort (backend_port.getD 0)] else [])

theorem scanFrom_some (n : Nat) : ∀ (lo p : Nat) (used : Finset Nat),
    scanFrom lo n used = some p →
    lo ≤ p ∧ p < lo + n ∧ p ∉ used ∧ ∀ q, lo ≤ q → q < p → q ∈ used := by
  induction n with
  | zero => intro lo p used h; simp [scanFrom] at h
  | succ m ih =>
    intro lo p used h
    rw [scanFrom] at h
    by_cases hm : lo ∈ used
    · rw [if_pos hm] at h
      obtain ⟨h1, h2, h3, h4⟩ := ih (lo + 1) p used h
      refine ⟨by omega, by omega, h3, ?_⟩
      intro q hq1 hq2
      rcases Nat.eq_or_lt_of_le hq1 with heq | hlt
      · exact heq ▸ hm
      · exact h4 q hlt hq2
    · rw [if_neg hm] at h
      cases h
      exact ⟨Nat.le_refl _, by omega, hm, fun q hq1 hq2 => absurd hq2 (by omega)⟩

theorem scanFrom_none (n : Nat) : ∀ (lo : Nat) (used : Finset Nat),
    scanFrom lo n used = none ↔ ∀ q, lo ≤ q → q < lo + n → q ∈ used := by
  induction n with
  | zero =>
    intro lo used
    simp [scanFrom]
    intro q h1 h2
    omega
  | succ m ih =>
    intro lo used
    rw [scanFrom]
    by_cases hm : lo ∈ used
    · rw [if_pos hm, ih]
      constructor
      · intro h q hq1 hq2
        rcases Nat.eq_or_lt_of_le hq1 with heq | hlt
        · exact heq ▸ hm
        · exact h q hlt (by omega)
      · intro h q hq1 hq2
        exact h q (by omega) (by omega)
    · rw [if_neg hm]
      simp
      exact ⟨lo, Nat.le_refl _, by omega, hm⟩

/-- C7: port allocation scans the tier range (frontend 3000-3999,
backend 8010-8999) in ascending order, skips used ports, reserves and
returns the smallest free port, and fails (the `RuntimeError`, the
spec's `ResourceExhausted`) exactly when the whole range is used. -/
theorem allocate_scans_range_ascending (used : Finset Nat) :
    (∀ p used2, allocate_frontend_port used = some (p, used2) →
      3000 ≤ p ∧ p < 4000 ∧ p ∉ used ∧ (∀ q, 3000 ≤ q → q < p → q ∈ used) ∧
        used2 = insert p used) ∧
    (allocate_frontend_port used = none ↔ ∀ q, 3000 ≤ q → q < 4000 → q ∈ used) ∧
    (∀ p used2, allocate_backend_port used = some (p, used2) →
      8010 ≤ p ∧ p < 9000 ∧ p ∉ used ∧ (∀ q, 8010 ≤ q → q < p → q ∈ used) ∧
        used2 = insert p used) ∧
    (allocate_backend_port used = none ↔ ∀ q, 8010 ≤ q → q < 9000 → q ∈ used) := by
  refine ⟨?_, ?_, ?_, ?_⟩
  · intro p used2 h
    rw [allocate_frontend_port] at h
    cases hs : scanFrom FRONTEND_PORT_MIN (FRONTEND_PORT_MAX - FRONTEND_PORT_MIN) used with
    | none => rw [hs] at h; exact absurd h (by simp)
    | some q =>
      rw [hs] at h
      obtain ⟨h1, h2, h3, h4⟩ := scanFrom_some _ _ _ _ hs
      simp only [Option.some.injEq, Prod.mk.injEq] at h
      obtain ⟨hpq, hu⟩ := h
      subst hpq
      exact ⟨h1, by simpa [FRONTEND_PORT_MIN, FRONTEND_PORT_MAX] using h2, h3,
        fun r hr1 hr2 => h4 r hr1 hr2, hu.symm⟩
  · rw [allocate_frontend_port]
    cases hs : scanFrom FRONTEND_PORT_MIN (FRONTEND_PORT_MAX - FRONTEND_PORT_MIN) used with
    | none =>
      simp only []
      constructor
      · intro _
        have := (scanFrom_none _ _ _).mp hs
        intro q hq1 hq2
        exact this q hq1 (by simpa [FRONTEND_PORT_MIN, FRONTEND_PORT_MAX] using hq2)
      · intro _; trivial
    | some q =>
      simp only []
      constructor
      · intro h; exact absurd h (by simp)
      · intro h
        obtain ⟨h1, h2, h3, _⟩ := scanFrom_some _ _ _ _ hs
        exact absurd (h q h1 (by simpa [FRONTEND_PORT_MIN, FRONTEND_PORT_MAX] using h2)) h3
  · intro p used2 h
    rw [allocate_backend_port] at h
    cases hs : scanFrom BACKEND_PORT_MIN (BACKEND_PORT_MAX - BACKEND_PORT_MIN) used with
    | none => rw [hs] at h; exact absurd h (by simp)
    | some q =>
      rw [hs] at h
      obtain ⟨h1, h2, h3, h4⟩ := scanFrom_some _ _ _ _ hs
      simp only [Option.some.injEq, Prod.mk.injEq] at h
      obtain ⟨hpq, hu⟩ := h
      subst hpq
      exact ⟨h1, by simpa [BACKEND_PORT_MIN, BACKEND_PORT_MAX] using h2, h3,
        fun r hr1 hr2 => h4 r hr1 hr2, hu.symm⟩
  · rw [allocate_backend_port]
    cases hs : scanFrom BACKEND_PORT_MIN (BACKEND_PORT_MAX - BACKEND_PORT_MIN) used with
    | none =>
      simp only []
      constructor
      · intro _
        have := (scanFrom_none _ _ _).mp hs
        intro q hq1 hq2
        exact this q hq1 (by simpa [BACKEND_PORT_MIN, BACKEND_PORT_MAX] using hq2)
      · intro _; trivial
    | some q =>
      simp only []
      constructor
      · intro h; exact absurd h (by simp)
      · intro h
        obtain ⟨h1, h2, h3, _⟩ := scanFrom_some _ _ _ _ hs
        exact absurd (h q h1 (by simpa [BACKEND_PORT_MIN, BACKEND_PORT_MAX] using h2)) h3

/-- Witness for C7: on the used-set `{3000, 3001, 8010}` the frontend
allocator hands out 3002 (the smallest free frontend port) and the
backend allocator hands out 8011. -/
theorem allocate_scans_range_ascending_witness :
    3000 ≤ 3002 ∧ 3002 < 4000 ∧ 3002 ∉ ({3000, 3001, 8010} : Finset Nat) ∧
    8010 ≤ 8011 ∧ 8011 < 9000 := by
  obtain ⟨hf, _, hb, _⟩ := allocate_scans_range_ascending ({3000, 3001, 8010} : Finset Nat)
  obtain ⟨a1, a2, a3, _, _⟩ := hf 3002 (insert 3002 ({3000, 3001, 8010} : Finset Nat)) (by decide)
  obtain ⟨b1, b2, _, _, _⟩ := hb 8011 (insert 8011 ({3000, 3001, 8010} : Finset Nat)) (by decide)
  exact ⟨a1, a2, a3, b1, b2⟩

/-- C8: `release_ports` is idempotent (releasing the same ports again
changes nothing, so double release and releasing a never-allocated
port are harmless no-ops), it only ever removes ports from the
used-set, a port different from the two released ones is never freed,
and releasing a port that is not in the used-set leaves the set
unchanged. -/
theorem release_ports_idempotent_and_frame (f b : Option Nat) (used : Finset Nat) :
    release_ports f b (release_ports f b used) = release_ports f b used ∧
    (∀ q, q ∈ release_ports f b used → q ∈ used) ∧
    (∀ q, q ∈ used → (∀ p, f = some p → q ≠ p) → (∀ p, b = some p → q ≠ p) →
      q ∈ release_ports f b used) ∧
    (∀ p, p ∉ used → release_ports (some p) none used = used) := by
  refine ⟨?_, ?_, ?_, ?_⟩
  · unfold release_ports
    by_cases hf : pyTruthy f = true <;> by_cases hb : pyTruthy b = true <;>
      simp [hf, hb, Finset.erase_idem, Finset.erase_right_comm]
  · intro q hq
    unfold release_ports at hq
    by_cases hf : pyTruthy f = true <;> by_cases hb : pyTruthy b = true <;>
      simp [hf, hb] at hq <;> tauto
  · intro q hq hqf hqb
    unfold release_ports
    cases f with
    | none =>
      cases b with
      | none => simpa [pyTruthy] using hq
      | some r =>
        by_cases hr : r = 0
        · simp [pyTruthy, hr, hq]
        · simp [pyTruthy, hr, Finset.mem_erase, hq]
          exact hqb r rfl
    | some p =>
      cases b with
      | none =>
        by_cases hp : p = 0
        · simp [pyTruthy, hp, hq]
        · simp [pyTruthy, hp, Finset.mem_erase, hq]
          exact hqf p rfl
      | some r =>
        by_cases hp : p = 0 <;> by_cases hr : r = 0 <;>
          simp [pyTruthy, hp, hr, Finset.mem_erase, hq] <;>
          first
            | exact hqf p rfl
            | exact hqb r rfl
            | exact ⟨hqb r rfl, hqf p rfl⟩
  · intro p hp
    unfold release_ports
    by_cases hp0 : p = 0
    · simp [pyTruthy, hp0]
    · simp [pyTruthy, hp0]
      exact hp

/-- Witness for C8: releasing ports 3000 and 8010 out of
`{3000, 8010, 3500}` twice equals releasing them once, and the
untouched port 3500 survives; releasing never-allocated 3999 from
`{3500}` is a no-op. -/
theorem release_ports_idempotent_and_frame_witness :
    release_ports (some 3000) (some 8010)
        (release_ports (some 3000) (some 8010) ({3000, 8010, 3500} : Finset Nat))
      = release_ports (some 3000) (some 8010) ({3000, 8010, 3500} : Finset Nat) ∧
    3500 ∈ release_ports (some 3000) (some 8010) ({3000, 8010, 3500} : Finset Nat) ∧
    release_ports (some 3999) none ({3500} : Finset Nat) = ({3500} : Finset Nat) := by
  obtain ⟨h1, _, h3, _⟩ :=
    release_ports_idempotent_and_frame (some 3000) (some 8010) ({3000, 8010, 3500} : Finset Nat)
  obtain ⟨_, _, _, h4⟩ :=
    release_ports_idempotent_and_frame (some 3999) none ({3500} : Finset Nat)
  refine ⟨h1, ?_, h4 3999 (by decide)⟩
  exact h3 3500 (by decide) (fun p hp => by cases hp; decide) (fun p hp => by cases hp; decide)

/- ## DatabaseProvisioner -/

/-- `DatabaseProvisioner._execute_sql`: runs `docker exec <container>
psql -U admin -d defaultdb -c <sql>`.  On a nonzero returncode or any
exception it logs and returns `[]`; on success it parses stdout into
rows (`line.split(' | ')` for every line containing a `'|'`).  It
never raises. -/
def execute_sql (sql : String) (env : Env) : List (List String) × List Event :=
  (match env.sqlExec sql with
   | CallOut.ok =>
     if (env.sqlStdout sql).trim = "" then []
     else
       (((env.sqlStdout sql).trim.splitOn "\n").filter (fun l => l.contains '|')).map
         (fun l => l.splitOn " | ")
   | _ => [],
   [Event.execSql sql])

/-- The connection-termination statement issued by
`DatabaseProvisioner.drop_database_and_user` before dropping. -/
def terminate_sql (db_name : String) : String :=
  "SELECT pg_terminate_backend(pg_stat_activity.pid) FROM pg_stat_activity "
    ++ "WHERE pg_stat_activity.datname = \x27" ++ db_name
    ++ "\x27 AND pid <> pg_backend_pid();"

/-- Result struct of `DatabaseProvisioner.create_database_and_user`. -/
structure DatabaseInfo where
  database_name : String
  username : String
  password : String
  database_url : String
deriving DecidableEq, Repr

/-- `DatabaseProvisioner.create_database_and_user`: derives
`{slug}_db` / `{slug}_user`, issues CREATE DATABASE, CREATE USER and
GRANT statements and returns the credential record.  Because
`_execute_sql` swallows every failure, this method never raises. -/
def create_database_and_user (project_name : String) (env : Env) :
    DatabaseInfo × List Event :=
  let db_name := project_name ++ "_db"
  let username := project_name ++ "_user"
  let password := env.genPassword
  let e1 := (execute_sql ("CREATE DATABASE " ++ db_name ++ ";") env).2
  let e2 := (execute_sql ("CREATE USER " ++ username ++ " WITH PASSWORD \x27"
    ++ password ++ "\x27;") env).2
  let e3 := (execute_sql ("GRANT ALL PRIVILEGES ON DATABASE " ++ db_name
    ++ " TO " ++ username ++ ";") env).2
  ({ database_name := db_name, username := username, password := password,
     database_url := "postgresql://" ++ username ++ ":" ++ password ++ "@"
       ++ POSTGRES_HOST ++ ":" ++ toString POSTGRES_PORT ++ "/" ++ db_name },
   e1 ++ e2 ++ e3)

/-- `DatabaseProvisioner.drop_database_and_user`: terminates existing
connections, then `DROP DATABASE IF EXISTS {slug}_db;`, then
`DROP USER IF EXISTS {slug}_user;`.  There is no validation gate and
no `force` parameter; the surrounding try/except cannot fire because
`_execute_sql` never raises, so all three statements are always
issued. -/
def drop_database_and_user (project_name : String) (env : Env) : List Event :=
  let db_name := project_name ++ "_db"
  let username := project_name ++ "_user"
  (execute_sql (terminate_sql db_name) env).2
    ++ (execute_sql ("DROP DATABASE IF EXISTS " ++ db_name ++ ";") env).2
    ++ (execute_sql ("DROP USER IF EXISTS " ++ username ++ ";") env).2

/- ## ServiceManager -/

/-- `ServiceManager.create_backend_service`: writes
`<project>/backend/ecosystem.config.json` (the PM2 process descriptor
for `{slug}-backend` on the backend port) and returns the app name;
`none` models the write raising, which the method re-raises after
logging. -/
def create_backend_service (project_name : String) (backend_port : Nat)
    (project_path : String) (env : Env) : Option String × List Event :=
  let app_name := project_name ++ "-backend"
  let ecosystem_path := project_path ++ "/backend/ecosystem.config.json"
  (if env.writeOk ecosystem_path then some app_name else none,
   [Event.writeFile ecosystem_path])

/-- `ServiceManager.start_backend_service`: returns `False` without
running pm2 when the ecosystem file is missing; otherwise runs
`pm2 start <ecosystem>` and returns whether it exited 0 (any exception
is caught and becomes `False`). -/
def start_backend_service (app_name : String) (backend_path : String)
    (env : Env) : Bool × List Event :=
  let ecosystem_path := backend_path ++ "/ecosystem.config.json"
  if env.pathExists ecosystem_path then
    ((env.pm2Start app_name).isOk, [Event.pm2Start app_name])
  else (false, [])

/-- `ServiceManager.stop_service`: `pm2 stop <name>`;
`True` iff returncode 0, any exception caught and turned into `False`. -/
def stop_service (app_name : String) (env : Env) : Bool × List Event :=
  ((env.pm2Stop app_name).isOk, [Event.pm2Stop app_name])

/-- `ServiceManager.delete_service`: `pm2 delete <name>`;
`True` iff returncode 0, any exception caught and turned into `False`. -/
def delete_service (app_name : String) (env : Env) : Bool × List Event :=
  ((env.pm2Delete app_name).isOk, [Event.pm2Delete app_name])

/-- `ServiceManager.create_frontend_service`: raises
(`none`) when the clawd-ui dist directory is missing; writes
`serve.py` there if absent (a raising write is re-raised); writes
`<dist>/{slug}-frontend.config.json` (a raising write is re-raised);
otherwise returns the app name `{slug}-frontend`. -/
def create_frontend_service (project_name : String) (frontend_port : Nat)
    (project_path : String) (env : Env) : Option String × List Event :=
  let app_name := project_name ++ "-frontend"
  if env.pathExists CLAWD_UI_DIST then
    let serve_py := CLAWD_UI_DIST ++ "/serve.py"
    let evs1 := if env.pathExists serve_py then [] else [Event.writeFile serve_py]
    if !env.pathExists serve_py && !env.writeOk serve_py then (none, evs1)
    else
      let eco := CLAWD_UI_DIST ++ "/" ++ app_name ++ ".config.json"
      (if env.writeOk eco then some app_name else none,
       evs1 ++ [Event.writeFile eco])
  else (none, [])

/-- `ServiceManager.start_frontend_service`: `pm2 start
<dist>/{name}.config.json`; `True` iff returncode 0, exceptions
caught. -/
def start_frontend_service (app_name : String) (env : Env) : Bool × List Event :=
  ((env.pm2Start app_name).isOk, [Event.pm2Start app_name])

/- ## NginxConfigurator -/

/-- The virtual-host artifact text produced by
`NginxConfigurator.generate_config` (two server blocks reverse-proxying
the frontend and backend subdomains to the two local ports). -/
def nginx_config_text (frontend_domain backend_domain : String)
    (frontend_port backend_port : Nat) : String :=
  "# Frontend: " ++ frontend_domain ++ "\nserver \x7b\n    listen 80;\n"
    ++ "    server_name " ++ frontend_domain ++ ";\n\n    location / \x7b\n"
    ++ "        proxy_pass http://127.0.0.1:" ++ toString frontend_port ++ ";\n"
    ++ "        proxy_http_version 1.1;\n"
    ++ "        proxy_set_header Upgrade $http_upgrade;\n"
    ++ "        proxy_set_header Connection \x27upgrade\x27;\n"
    ++ "        proxy_set_header Host $host;\n"
    ++ "        proxy_set_header X-Real-IP $remote_addr;\n"
    ++ "        proxy_set_header X-Forwarded-For $proxy_add_x_forwarded_for;\n"
    ++ "        proxy_set_header X-Forwarded-Proto $scheme;\n"
    ++ "    \x7d\n\x7d\n\n# Backend: " ++ backend_domain
    ++ "\nserver \x7b\n    listen 80;\n    server_name " ++ backend_domain
    ++ ";\n\n    location / \x7b\n"
    ++ "        proxy_pass http://127.0.0.1:" ++ toString backend_port ++ ";\n"
    ++ "        proxy_http_version 1.1;\n"
    ++ "        proxy_set_header Upgrade $http_upgrade;\n"
    ++ "        proxy_set_header Connection \x27upgrade\x27;\n"
    ++ "        proxy_set_header Host $host;\n"
    ++ "        proxy_set_header X-Real-IP $remote_addr;\n"
    ++ "        proxy_set_header X-Forwarded-For $proxy_add_x_forwarded_for;\n"
    ++ "        proxy_set_header X-Forwarded-Proto $scheme;\n"
    ++ "        proxy_set_header X-Forwarded-Host $host;\n"
    ++ "        proxy_set_header X-Forwarded-Port $server_port;\n"
    ++ "    \x7d\n\x7d\n"

/-- `NginxConfigurator.generate_config`: pure; returns
`({slug}.{base}, {slug}-api.{base}, artifact_text)`. -/
def generate_config (project_name : String) (frontend_port backend_port : Nat) :
    String × String × String :=
  let frontend_domain := project_name ++ "." ++ BASE_DOMAIN
  let backend_domain := project_name ++ "-api." ++ BASE_DOMAIN
  (frontend_domain, backend_domain,
   nginx_config_text frontend_domain backend_domain frontend_port backend_port)

/-- `NginxConfigurator.install_config`: writes the artifact to
`sites-available/{slug}.conf`, removes a stale `sites-enabled` symlink
if present, creates the symlink; any exception is caught and the
method returns `False`. -/
def install_config (project_name : String) (config : String) (env : Env) :
    Bool × List Event :=
  let config_path := NGINX_CONFIG_DIR ++ "/" ++ project_name ++ ".conf"
  let symlink_path := NGINX_ENABLED_DIR ++ "/" ++ project_name ++ ".conf"
  if !env.writeOk config_path then (false, [Event.writeFile config_path])
  else
    let evs := [Event.writeFile config_path]
      ++ (if env.pathExists symlink_path then [Event.unlinkFile symlink_path] else [])
    if env.pathExists symlink_path && !env.unlinkOk symlink_path then (false, evs)
    else
      let evs2 := evs ++ [Event.symlinkFile symlink_path]
      (env.symlinkOk symlink_path, evs2)

/-- `NginxConfigurator.reload_nginx`: runs `nginx -t` first; on a
nonzero returncode (or an exception) it returns `False` without
reloading; only when the test passes does it run `nginx -s reload`,
returning whether that exited 0. -/
def reload_nginx (env : Env) : Bool × List Event :=
  match env.nginxTest with
  | CallOut.ok =>
    ((env.nginxReload).isOk, [Event.nginxTest, Event.nginxReload])
  | _ => (false, [Event.nginxTest])

/-- `NginxConfigurator.remove_config`: unlinks the `sites-enabled`
symlink and the `sites-available` artifact when they exist (an
exception from either unlink is caught, returning `False` before the
reload), then returns `reload_nginx()`. -/
def remove_config (project_name : String) (env : Env) : Bool × List Event :=
  let config_path := NGINX_CONFIG_DIR ++ "/" ++ project_name ++ ".conf"
  let symlink_path := NGINX_ENABLED_DIR ++ "/" ++ project_name ++ ".conf"
  let evs1 : List Event :=
    if env.pathExists symlink_path then [Event.unlinkFile symlink_path] else []
  if env.pathExists symlink_path && !env.unlinkOk symlink_path then (false, evs1)
  else
    let evs2 := evs1
      ++ (if env.pathExists config_path then [Event.unlinkFile config_path] else [])
    if env.pathExists config_path && !env.unlinkOk config_path then (false, evs2)
    else
      let r := reload_nginx env
      (r.1, evs2 ++ r.2)

/- ## DeploymentVerifier -/

/-- `DeploymentVerifier.check_port`: raw TCP connect to
`127.0.0.1:<port>`; true iff `connect_ex` returned 0 (exceptions are
caught and yield `False`). -/
def check_port (port : Nat) (env : Env) : Bool × List Event :=
  (env.portOpen port, [Event.checkPort port])

/-- Keyword parameters accepted by the constructor of Python's
`urllib.request.Request` — `Request(url, data=None, headers={},
origin_req_host=None, unverifiable=False, method=None)`.  Modelled
from the Python standard library signature; `timeout` is not among
them, so `Request(url, timeout=...)` raises `TypeError` (the timeout
keyword belongs to `urlopen`). -/
def urllibRequestKwargs : List String :=
  ["data", "headers", "origin_req_host", "unverifiable", "method"]

/-- `DeploymentVerifier.check_health_endpoint`: builds the request with
`urllib.request.Request(url, timeout=timeout)`.  Since `timeout` is not
an accepted keyword, the constructor raises `TypeError` before any
HTTP request is made; the surrounding `except Exception` catches it and
the method returns `False`.  (The branch guarded by the keyword being
accepted models the GET and the `result.get('status') == 'ok'` check
the author intended; it is unreachable.) -/
def check_health_endpoint (port : Nat) (path : String) (timeout : Nat)
    (env : Env) : Bool × List Event :=
  if urllibRequestKwargs.contains "timeout" then
    (env.healthStatusOk port, [Event.httpGet port path])
  else
    (false, [])

/-- Result dict of `DeploymentVerifier.verify_deployment`. -/
structure VerificationResult where
  frontend_port_open : Bool
  backend_port_open : Bool
  backend_health_ok : Bool
  overall : Bool
deriving DecidableEq, Repr

/-- `DeploymentVerifier.verify_deployment`: checks both ports, checks
the health endpoint only when the backend port is open, and sets
`overall` to the conjunction of the three. -/
def verify_deployment (project_name : String) (frontend_port backend_port : Nat)
    (env : Env) : VerificationResult × List Event :=
  let f := (check_port frontend_port env).1
  let b := (check_port backend_port env).1
  let h := if b then (check_health_endpoint backend_port "/health" 10 env).1 else false
  ({ frontend_port_open := f, backend_port_open := b, backend_health_ok := h,
     overall := f && b && h },
   (check_port frontend_port env).2 ++ (check_port backend_port env).2
     ++ (if b then (check_health_endpoint backend_port "/health" 10 env).2 else []))

/- ## DNSProvisioner -/

/-- `DNSProvisioner.check_subdomain_exists`: invokes the hostinger-dns
skill's `check_subdomain_existence`; on returncode 0 it reports
`(True, extracted_ip)` when the stdout mentions the record and an IP
regex matches, `(False, None)` otherwise; on a nonzero returncode or
an exception it reports `(False, None)`.  The unused `domain` argument
defaults to `BASE_DOMAIN` in the source. -/
def check_subdomain_exists (subdomain : String) (domain : Option String)
    (env : Env) : (Bool × Option String) × List Event :=
  (match env.dnsCheckCall subdomain with
   | CallOut.ok =>
     if env.dnsFound subdomain then (true, env.dnsIp subdomain) else (false, none)
   | _ => (false, none),
   [Event.dnsCheck subdomain])

/-- `DNSProvisioner.create_a_record`: fills in the default domain
(`BASE_DOMAIN`), IP (`SERVER_IP`) and, at its call sites, the default
TTL 14400, then invokes the skill's `create_a_record`; true iff
returncode 0 (exceptions are caught and yield `False`). -/
def create_a_record (subdomain : String) (domain : Option String)
    (ip : Option String) (ttl : Nat) (env : Env) : Bool × List Event :=
  let domain := domain.getD BASE_DOMAIN
  let ip := ip.getD SERVER_IP
  ((env.dnsCreateCall subdomain).isOk, [Event.dnsCreate subdomain domain ip ttl])

/-- Result dict of `DNSProvisioner.provision_project_dns`. -/
structure DnsResults where
  frontend : Bool
  backend : Bool
  frontend_exists : Bool
  backend_exists : Bool
deriving DecidableEq, Repr

/-- One tier of `DNSProvisioner.provision_project_dns`: check the
subdomain; if it exists, succeed only when the reported IP is truthy
and equals `SERVER_IP` (a different IP is logged as a conflict warning
and left alone — never overwritten); if it does not exist, create the
A record with the default TTL 14400. -/
def provision_dns_tier (subdomain : String) (env : Env) :
    (Bool × Bool) × List Event :=
  let c := check_subdomain_exists subdomain none env
  let tierExists := c.1.1
  if tierExists then
    (((match c.1.2 with
       | some ip => if ip = "" then false else decide (ip = SERVER_IP)
       | none => false),
      tierExists), c.2)
  else
    let cr := create_a_record subdomain none none 14400 env
    ((cr.1, tierExists), c.2 ++ cr.2)

/-- `DNSProvisioner.provision_project_dns`: runs the
check-then-maybe-create sequence for the frontend subdomain (`slug`)
and the backend subdomain (`slug-api`) and aggregates both outcomes;
no failure here raises. -/
def provision_project_dns (project_name : String) (env : Env) :
    DnsResults × List Event :=
  let frontend_subdomain := project_name
  let backend_subdomain := project_name ++ "-api"
  let f := provision_dns_tier frontend_subdomain env
  let b := provision_dns_tier backend_subdomain env
  ({ frontend := f.1.1, backend := b.1.1,
     frontend_exists := f.1.2, backend_exists := b.1.2 },
   f.2 ++ b.2)

/- ## InfrastructureManager -/

/-- Mutable attributes of an `InfrastructureManager` instance relevant
to provisioning and rollback.  `__init__` sets `ports = {}` (so
`hasattr(self, 'ports')` is always true and both lookups yield `None`
until phase 1 assigns them) and leaves `service_name` /
`frontend_app_name` unset (`none`) until phases 4 and 7 assign them. -/
structure MState where
  used_ports : Finset Nat
  ports_frontend : Option Nat
  ports_backend : Option Nat
  service_name : Option String
  frontend_app_name : Option String
  database_info : Option DatabaseInfo
  domains_frontend : Option String
  domains_backend : Option String
  dns_results : Option DnsResults
deriving DecidableEq

/-- A freshly constructed manager state over a given pre-loaded
used-port set. -/
def initState (used : Finset Nat) : MState :=
  { used_ports := used, ports_frontend := none, ports_backend := none,
    service_name := none, frontend_app_name := none, database_info := none,
    domains_frontend := none, domains_backend := none, dns_results := none }

/-- The stop/delete compensations of `InfrastructureManager._rollback`:
for each service attribute that has been set, `pm2 stop` then
`pm2 delete`. -/
def rollback_service_events (s : MState) (env : Env) : List Event :=
  (match s.service_name with
   | some n => (stop_service n env).2 ++ (delete_service n env).2
   | none => [])
    ++ (match s.frontend_app_name with
        | some n => (stop_service n env).2 ++ (delete_service n env).2
        | none => [])

/-- `InfrastructureManager._rollback`: stop/deregister the backend and
frontend services (when registered), remove the nginx config and
reload, drop the database and user, and release both ports
(`hasattr(self, 'ports')` is always true).  DNS records are
deliberately not touched (source comment: "DNS A records are not
deleted on rollback").  Every leaf call catches its own exceptions, so
the surrounding try/except never fires and all compensations are
always attempted. -/
def rollback (project_name : String) (s : MState) (env : Env) :
    MState × List Event :=
  ({ s with used_ports := release_ports s.ports_frontend s.ports_backend s.used_ports },
   rollback_service_events s env
     ++ (remove_config project_name env).2
     ++ drop_database_and_user project_name env
     ++ release_ports_events s.ports_frontend s.ports_backend)

/-- `InfrastructureManager._configure_backend_env`: reads the backend
`.env` (empty when absent), updates/adds `DATABASE_URL`,
`BACKEND_PORT` and `PROJECT_NAME` lines, and writes the file back; the
only modelled failure is the final `write_text` raising, which the
method re-raises after logging (the computed content is opaque to
every property below). -/
def configure_backend_env (project_path : String) (env : Env) :
    Bool × List Event :=
  let env_path := project_path ++ "/backend/.env"
  (env.writeOk env_path, [Event.writeFile env_path])

/-- `InfrastructureManager._save_metadata`: builds the metadata dict
and calls `json.dumps` — but `json` is not bound at module scope of
`infrastructure_manager.py`, so a `NameError` is raised before
`write_text`; the method's `except Exception` catches it, so no
`project.json` is ever written and nothing propagates. -/
def save_metadata (project_path : String) (s : MState) : List Event :=
  if infraModuleImports.contains "json" then
    [Event.writeFile (project_path ++ "/project.json")]
  else
    []

/-- `InfrastructureManager.provision_all`: the phase sequence of the
source — (1) allocate frontend then backend port (a `RuntimeError`
from either aborts; the dict assignment happens only after both
succeed, so a backend failure leaves the frontend port in the used-set
with `self.ports` still `{}`), (2) create database and user (never
raises), (3) configure the backend `.env` (a write failure raises),
(4) write the backend service config (a write failure raises),
(5) generate and install the nginx config and reload — both boolean
results are ignored, (6) provision DNS (never raises), (7) start the
backend service (result ignored), create the frontend service (a
failure raises) and start it (result only logged), then verify; on
`overall` the metadata is saved and `True` returned, otherwise — and
on any raised exception — `_rollback` runs and `False` is returned. -/
def provision_all (project_name project_path : String) (s0 : MState)
    (env : Env) : Bool × MState × List Event :=
  match allocate_frontend_port s0.used_ports with
  | none =>
    let rb := rollback project_name s0 env
    (false, rb.1, rb.2)
  | some fyld =>
    match allocate_backend_port fyld.2 with
    | none =>
      let s1 := { s0 with used_ports := fyld.2 }
      let rb := rollback project_name s1 env
      (false, rb.1, rb.2)
    | some byld =>
      let s1 := { s0 with
        used_ports := byld.2,
        ports_frontend := some fyld.1,
        ports_backend := some byld.1 }
      let db := create_database_and_user project_name env
      let s2 := { s1 with database_info := some db.1 }
      let cfg := configure_backend_env project_path env
      if !cfg.1 then
        let rb := rollback project_name s2 env
        (false, rb.1, db.2 ++ cfg.2 ++ rb.2)
      else
        let svc := create_backend_service project_name byld.1 project_path env
        match svc.1 with
        | none =>
          let rb := rollback project_name s2 env
          (false, rb.1, db.2 ++ cfg.2 ++ svc.2 ++ rb.2)
        | some svcName =>
          let s3 := { s2 with service_name := some svcName }
          let gen := generate_config project_name fyld.1 byld.1
          let s4 := { s3 with
            domains_frontend := some gen.1,
            domains_backend := some gen.2.1 }
          let inst := install_config project_name gen.2.2 env
          let rel := reload_nginx env
          let dns := provision_project_dns project_name env
          let s5 := { s4 with dns_results := some dns.1 }
          let startB := start_backend_service svcName (project_path ++ "/backend") env
          let fe := create_frontend_service project_name fyld.1 project_path env
          match fe.1 with
          | none =>
            let rb := rollback project_name s5 env
            (false, rb.1, db.2 ++ cfg.2 ++ svc.2 ++ inst.2 ++ rel.2 ++ dns.2
              ++ startB.2 ++ fe.2 ++ rb.2)
          | some feName =>
            let s6 := { s5 with frontend_app_name := some feName }
            let startF := start_frontend_service feName env
            let ver := verify_deployment project_name fyld.1 byld.1 env
            let fwd := db.2 ++ cfg.2 ++ svc.2 ++ inst.2 ++ rel.2 ++ dns.2
              ++ startB.2 ++ fe.2 ++ startF.2 ++ ver.2
            if (ver.1).overall then
              (true, s6, fwd ++ save_metadata project_path s6)
            else
              let rb := rollback project_name s6 env
              (false, rb.1, fwd ++ rb.2)

/-- The cleanup sequence the author intended
`InfrastructureManager.teardown` to run from the loaded metadata:
stop/delete both services, remove the nginx config, drop the database,
release the recorded ports.  It is unreachable (see `teardown`). -/
def teardown_steps (project_name : String) (env : Env) : List Event :=
  (match env.infraMeta.service_name with
   | some n => (stop_service n env).2 ++ (delete_service n env).2
   | none => [])
    ++ (match env.infraMeta.frontend_app_name with
        | some n => (stop_service n env).2 ++ (delete_service n env).2
        | none => [])
    ++ (remove_config project_name env).2
    ++ drop_database_and_user project_name env
    ++ release_ports_events env.infraMeta.ports_frontend env.infraMeta.ports_backend

/-- `InfrastructureManager.teardown`: does nothing when `project.json`
is absent; when it exists, the body starts with
`json.loads(metadata_path.read_text())`, which raises `NameError`
(`json` is not bound at module scope), so the surrounding
`except Exception` catches it before any cleanup step and the method
returns normally having done nothing. -/
def teardown (project_name project_path : String) (env : Env) : List Event :=
  if env.pathExists (project_path ++ "/project.json") then
    if infraModuleImports.contains "json" then teardown_steps project_name env
    else []
  else []

/- ## app.py cleanup helpers -/

/-- Python's `str.startswith(prefix)`, computed on the character lists
(the built-in `String.startsWith` does not reduce inside the
kernel). -/
def pyStartsWith (s pre : String) : Bool := pre.data.isPrefixOf s.data

/-- Fuel-indexed scan of Python's `str.replace(old, new)`: replaces
every non-overlapping occurrence of `old`, left to right.  The fuel is
the length of the scanned list, so the recursion is structural and the
function evaluates inside the kernel.  (`old` is nonempty at every use
site; an empty `old` leaves the string unchanged here.) -/
def pyReplaceLoop (old new : List Char) : Nat → List Char → List Char
  | 0, _ => []
  | _ + 1, [] => []
  | fuel + 1, c :: rest =>
    if old ≠ [] ∧ old.isPrefixOf (c :: rest) then
      new ++ pyReplaceLoop old new fuel (rest.drop (old.length - 1))
    else c :: pyReplaceLoop old new fuel rest

/-- Python's `str.replace(old, new)`. -/
def pyReplace (s old new : String) : String :=
  ⟨pyReplaceLoop old.data new.data s.data.length s.data⟩

/-- Split at a separator character (all occurrences), keeping empty
parts, as Python's `str.split(sep)` does. -/
def pySplitOnChar (sep : Char) (s : List Char) : List (List Char) :=
  match s with
  | [] => [[]]
  | c :: rest =>
    let r := pySplitOnChar sep rest
    if c = sep then [] :: r
    else match r with
      | [] => [[c]]
      | h :: t => (c :: h) :: t


/-- True when the call raised (`TimeoutExpired` or another exception)
rather than completing. -/
def CallOut.raised : CallOut → Bool
  | CallOut.timeout => true
  | CallOut.exn => true
  | _ => false

/-- True when the call completed with a nonzero returncode (what
`check=True` turns into `CalledProcessError`). -/
def CallOut.isErr : CallOut → Bool
  | CallOut.err => true
  | _ => false

/-- Per-tier dict of `app.cleanup_pm2_services`. -/
structure Pm2TierResult where
  stopped : Bool
  deleted : Bool
  error : Option String
deriving DecidableEq, Repr

/-- Result dict of `app.cleanup_pm2_services`. -/
structure Pm2CleanupResult where
  frontend : Pm2TierResult
  backend : Pm2TierResult
deriving DecidableEq, Repr

/-- One tier of `app.cleanup_pm2_services`: `pm2 stop` then
`pm2 delete`, each wrapped so that nothing propagates; the returncode
is never inspected, so `stopped`/`deleted` mean only "the call did not
raise"; only `TimeoutExpired` records an error message, and a delete
timeout overwrites it only when the stop had succeeded. -/
def cleanup_pm2_tier (service : String) (env : Env) :
    Pm2TierResult × List Event :=
  let st := env.pm2Stop service
  let stopped := st.completed
  let err1 : Option String :=
    if st = CallOut.timeout then some "Timeout stopping service" else none
  let dl := env.pm2Delete service
  let err2 :=
    if dl = CallOut.timeout then
      (if stopped then some "Timeout deleting service" else err1)
    else err1
  ({ stopped := stopped, deleted := dl.completed, error := err2 },
   [Event.pm2Stop service, Event.pm2Delete service])

/-- `app.cleanup_pm2_services`: stops and deletes
`{slug}-frontend` and `{slug}-backend`, then runs `pm2 save`; every
call is individually wrapped, so this function never raises and always
attempts all five calls. -/
def cleanup_pm2_services (project_name : String) (env : Env) :
    Pm2CleanupResult × List Event :=
  let f := cleanup_pm2_tier (project_name ++ "-frontend") env
  let b := cleanup_pm2_tier (project_name ++ "-backend") env
  ({ frontend := f.1, backend := b.1 }, f.2 ++ b.2 ++ [Event.pm2Save])

/-- Result dict of `app.cleanup_nginx_config`.  Unlike the
configurator in `infrastructure_manager.py`, this helper removes the
paths `sites-available/{slug}` and `sites-enabled/{slug}` (without the
`.conf` suffix) via `rm -f`, then tests and reloads nginx via
`systemctl`. -/
structure NginxCleanupResult where
  config_removed : Bool
  symlink_removed : Bool
  nginx_reloaded : Bool
  errors : List String
deriving DecidableEq, Repr

/-- `app.cleanup_nginx_config`.  Each `rm -f` catches only
`CalledProcessError` (a raising call propagates: modelled by `none`);
the `nginx -t` / `systemctl reload nginx` block catches
`CalledProcessError` and `TimeoutExpired` but lets other exceptions
propagate. -/
def cleanup_nginx_config (project_name : String) (env : Env) :
    Option NginxCleanupResult × List Event :=
  let config_path := "/etc/nginx/sites-available/" ++ project_name
  let symlink_path := "/etc/nginx/sites-enabled/" ++ project_name
  let cEvs := if env.pathExists config_path then [Event.rmFileCmd config_path] else []
  if env.pathExists config_path && (env.rmFile config_path).raised then (none, cEvs)
  else
    let config_removed := env.pathExists config_path && (env.rmFile config_path).isOk
    let cErrs := if env.pathExists config_path && (env.rmFile config_path).isErr
      then ["Failed to remove config"] else []
    let sEvs := if env.pathExists symlink_path then [Event.rmFileCmd symlink_path] else []
    if env.pathExists symlink_path && (env.rmFile symlink_path).raised then
      (none, cEvs ++ sEvs)
    else
      let symlink_removed := env.pathExists symlink_path && (env.rmFile symlink_path).isOk
      let sErrs := if env.pathExists symlink_path && (env.rmFile symlink_path).isErr
        then ["Failed to remove symlink"] else []
      match env.nginxTest with
      | CallOut.ok =>
        (match env.systemctlReload with
         | CallOut.ok =>
           some { config_removed := config_removed, symlink_removed := symlink_removed,
                  nginx_reloaded := true, errors := cErrs ++ sErrs }
         | CallOut.err =>
           some { config_removed := config_removed, symlink_removed := symlink_removed,
                  nginx_reloaded := false,
                  errors := cErrs ++ sErrs ++ ["Failed to reload nginx"] }
         | CallOut.timeout =>
           some { config_removed := config_removed, symlink_removed := symlink_removed,
                  nginx_reloaded := false,
                  errors := cErrs ++ sErrs ++ ["Timeout reloading nginx"] }
         | CallOut.exn => none,
         cEvs ++ sEvs ++ [Event.nginxTest, Event.systemctlReloadNginx])
      | CallOut.err =>
        (some { config_removed := config_removed, symlink_removed := symlink_removed,
                nginx_reloaded := false,
                errors := cErrs ++ sErrs ++ ["Failed to reload nginx"] },
         cEvs ++ sEvs ++ [Event.nginxTest])
      | CallOut.timeout =>
        (some { config_removed := config_removed, symlink_removed := symlink_removed,
                nginx_reloaded := false,
                errors := cErrs ++ sErrs ++ ["Timeout reloading nginx"] },
         cEvs ++ sEvs ++ [Event.nginxTest])
      | CallOut.exn => (none, cEvs ++ sEvs ++ [Event.nginxTest])

/-- Result dict of `app.cleanup_ssl_certificates`. -/
structure SslCleanupResult where
  frontend_removed : Bool
  backend_removed : Bool
  errors : List String
deriving DecidableEq, Repr

/-- `app.cleanup_ssl_certificates`: `rm -rf
/etc/letsencrypt/live/<domain>` for each existing certificate
directory; only `CalledProcessError` is caught (a raising call
propagates, modelled by `none`). -/
def cleanup_ssl_certificates (frontend_domain backend_domain : String)
    (env : Env) : Option SslCleanupResult × List Event :=
  let fp := "/etc/letsencrypt/live/" ++ frontend_domain
  let bp := "/etc/letsencrypt/live/" ++ backend_domain
  let fEvs := if env.pathExists fp then [Event.rmTreeCmd fp] else []
  if env.pathExists fp && (env.rmTree fp).raised then (none, fEvs)
  else
    let bEvs := if env.pathExists bp then [Event.rmTreeCmd bp] else []
    if env.pathExists bp && (env.rmTree bp).raised then (none, fEvs ++ bEvs)
    else
      (some { frontend_removed := env.pathExists fp && (env.rmTree fp).isOk,
              backend_removed := env.pathExists bp && (env.rmTree bp).isOk,
              errors :=
                (if env.pathExists fp && (env.rmTree fp).isErr
                 then ["Failed to remove frontend cert"] else [])
                ++ (if env.pathExists bp && (env.rmTree bp).isErr
                    then ["Failed to remove backend cert"] else []) },
       fEvs ++ bEvs)

/-- Result dict of `app.cleanup_dns_records`. -/
structure DnsCleanupResult where
  frontend_removed : Bool
  backend_removed : Bool
  errors : List String
deriving DecidableEq, Repr

/-- One record removal of `app.cleanup_dns_records`: the hostinger-dns
`delete_dns_record` call; removed iff returncode 0; a nonzero
returncode is only logged (no error recorded); `TimeoutExpired` and
other exceptions are caught and recorded. -/
def cleanup_dns_tier (name : String) (tier : String) (env : Env) :
    (Bool × List String) × List Event :=
  (match env.dnsDeleteCall name with
   | CallOut.ok => (true, [])
   | CallOut.err => (false, [])
   | CallOut.timeout => (false, ["Timeout removing " ++ tier ++ " DNS record"])
   | CallOut.exn => (false, ["Error removing " ++ tier ++ " DNS"]),
   [Event.dnsDelete name])

/-- `app.cleanup_dns_records`: removes the frontend and backend A
records; never raises. -/
def cleanup_dns_records (frontend_domain backend_domain : String)
    (env : Env) : DnsCleanupResult × List Event :=
  let f := cleanup_dns_tier frontend_domain "frontend" env
  let b := cleanup_dns_tier backend_domain "backend" env
  ({ frontend_removed := f.1.1, backend_removed := b.1.1,
     errors := f.1.2 ++ b.1.2 },
   f.2 ++ b.2)

/-- Result dict of `app.cleanup_postgresql_database`. -/
structure PgCleanupResult where
  database_dropped : Bool
  user_dropped : Bool
  errors : List String
deriving DecidableEq, Repr

/-- `app.cleanup_postgresql_database`: feeds
`DROP DATABASE IF EXISTS {db_name};` and then
`DROP USER IF EXISTS {db_user};` to psql over stdin, with no
validation of either name and no `force` parameter; `CalledProcessError`
and `TimeoutExpired` are caught per statement (other exceptions
propagate, modelled by `none`).  Thanks to `IF EXISTS`, dropping a
nonexistent database or user exits 0. -/
def cleanup_postgresql_database (db_name db_user : String) (env : Env) :
    Option PgCleanupResult × List Event :=
  let drop_db_sql := "DROP DATABASE IF EXISTS " ++ db_name ++ ";\n"
  let drop_user_sql := "DROP USER IF EXISTS " ++ db_user ++ ";\n"
  if env.sqlStdin drop_db_sql = CallOut.exn then
    (none, [Event.execSqlStdin drop_db_sql])
  else
    let dbErrs := match env.sqlStdin drop_db_sql with
      | CallOut.err => ["Failed to drop database"]
      | CallOut.timeout => ["Timeout dropping database"]
      | _ => []
    if env.sqlStdin drop_user_sql = CallOut.exn then
      (none, [Event.execSqlStdin drop_db_sql, Event.execSqlStdin drop_user_sql])
    else
      (some { database_dropped := (env.sqlStdin drop_db_sql).isOk,
              user_dropped := (env.sqlStdin drop_user_sql).isOk,
              errors := dbErrs
                ++ (match env.sqlStdin drop_user_sql with
                    | CallOut.err => ["Failed to drop user"]
                    | CallOut.timeout => ["Timeout dropping user"]
                    | _ => []) },
       [Event.execSqlStdin drop_db_sql, Event.execSqlStdin drop_user_sql])

/-- Result dict of `app.cleanup_project_directory`. -/
structure DirCleanupResult where
  removed : Bool
  error : Option String
deriving DecidableEq, Repr

/-- `app.cleanup_project_directory`: refuses paths outside
`/root/dreampilot/projects/website` (`os.path.abspath` is modelled as
the identity — every path below is absolute and already normalized),
then removes the directory if it exists; `shutil.rmtree` failures are
caught. -/
def cleanup_project_directory (project_path : String) (env : Env) :
    DirCleanupResult × List Event :=
  let dreampilot_root := "/root/dreampilot/projects/website"
  if !(pyStartsWith project_path dreampilot_root) then
    ({ removed := false, error := some "Path traversal attempt detected" }, [])
  else if env.pathExists project_path then
    if env.rmtreeOk project_path then
      ({ removed := true, error := none }, [Event.rmTreePy project_path])
    else
      ({ removed := false, error := some "Failed to remove directory" },
       [Event.rmTreePy project_path])
  else
    ({ removed := false, error := none }, [])

/-- Per-step entry of `cleanup_infrastructure`'s report:
`done r` = the helper returned `r`; `skipped` = the `{"skipped": True}`
dict; `errored` = the step wrapper caught an exception and stored an
`{"error": ...}` dict. -/
inductive StepOutcome (α : Type) where
  | done (r : α)
  | skipped
  | errored
deriving DecidableEq, Repr

/-- Wraps one helper call in the `try/except` of
`cleanup_infrastructure`'s step sequence. -/
def stepOf {α : Type} (r : Option α × List Event) : StepOutcome α × List Event :=
  ((match r.1 with
    | some v => StepOutcome.done v
    | none => StepOutcome.errored), r.2)

/-- The structured report returned by `app.cleanup_infrastructure`
(the Python dict nests the six step entries under a `"steps"` key). -/
structure CleanupReport where
  project_name : String
  project_path : String
  pm2 : StepOutcome Pm2CleanupResult
  nginx : StepOutcome NginxCleanupResult
  ssl : StepOutcome SslCleanupResult
  dns : StepOutcome DnsCleanupResult
  database : StepOutcome PgCleanupResult
  directory : StepOutcome DirCleanupResult
deriving DecidableEq, Repr

/-- `os.path.basename` for the slash-separated paths used here. -/
def basename (p : String) : String :=
  ⟨((pySplitOnChar '/' p.data).getLast?).getD []⟩

/-- The empty metadata dict (missing or unparseable `project.json`). -/
def emptyProjectMeta : ProjectMeta :=
  { project_name := "", domains_frontend := "", domains_backend := "",
    database := MetaDatabase.absent, frontend_domain := "",
    backend_domain := "" }

/-- The metadata `cleanup_infrastructure` works from: the parsed
`project.json` when present and parseable, else `{}`. -/
def cleanup_meta (project_path : String) (env : Env) : ProjectMeta :=
  if env.pathExists (project_path ++ "/project.json") && env.projectJsonParseOk
  then env.projectMeta else emptyProjectMeta

/-- Derived project name: `metadata.get("project_name") or
os.path.basename(project_path)`. -/
def cleanup_project_name (project_path : String) (env : Env) : String :=
  let meta := cleanup_meta project_path env
  if meta.project_name = "" then basename project_path else meta.project_name

/-- Derived bare frontend subdomain: the `domains.frontend` value with
`.dreambigwithai.com` stripped, falling back to the legacy top-level
`frontend_domain` key. -/
def cleanup_frontend_domain (meta : ProjectMeta) : String :=
  let d := pyReplace meta.domains_frontend ".dreambigwithai.com" ""
  if d = "" then
    (if meta.frontend_domain = "" then d
     else pyReplace meta.frontend_domain ".dreambigwithai.com" "")
  else d

/-- Derived bare backend subdomain (same derivation as the
frontend). -/
def cleanup_backend_domain (meta : ProjectMeta) : String :=
  let d := pyReplace meta.domains_backend ".dreambigwithai.com" ""
  if d = "" then
    (if meta.backend_domain = "" then d
     else pyReplace meta.backend_domain ".dreambigwithai.com" "")
  else d

/-- The database name/user derivation of `cleanup_infrastructure`
(`project_metadata.get("database", {}).get("name", "")` and the legacy
fallback `db_name = project_metadata.get("database", ""); db_user =
db_name.replace("_db", "_user")`).  `none` models the unguarded
`AttributeError` this code raises: `.get` called on a string value of
the `"database"` key (app.py line 936), or `.replace` called on a
name-less nonempty dict that the truthy legacy fallback hands it
(line 954).  Either error escapes `cleanup_infrastructure` before
STEP 1.  An absent key or an empty dict is harmless: both `.get`
chains yield `""` and the falsy fallback is skipped. -/
def cleanup_db_fields (meta : ProjectMeta) : Option (String × String) :=
  match meta.database with
  | MetaDatabase.str _ => none
  | MetaDatabase.absent => some ("", "")
  | MetaDatabase.emptyDict => some ("", "")
  | MetaDatabase.dict n u => if n = "" then none else some (n, u)

/-- STEP 3 of `cleanup_infrastructure` with its skip guard: SSL
certificates are removed only when at least one domain is known. -/
def cleanup_ssl_step (frontend_domain backend_domain : String) (env : Env) :
    StepOutcome SslCleanupResult × List Event :=
  let full_frontend :=
    if frontend_domain ≠ "" then frontend_domain ++ ".dreambigwithai.com" else ""
  let full_backend :=
    if backend_domain ≠ "" then backend_domain ++ ".dreambigwithai.com" else ""
  if full_frontend ≠ "" ∨ full_backend ≠ "" then
    stepOf (cleanup_ssl_certificates full_frontend full_backend env)
  else (StepOutcome.skipped, [])

/-- STEP 4 of `cleanup_infrastructure` with its skip guard: DNS
records are removed only when at least one domain is known. -/
def cleanup_dns_step (frontend_domain backend_domain : String) (env : Env) :
    StepOutcome DnsCleanupResult × List Event :=
  if frontend_domain ≠ "" ∨ backend_domain ≠ "" then
    (StepOutcome.done (cleanup_dns_records frontend_domain backend_domain env).1,
     (cleanup_dns_records frontend_domain backend_domain env).2)
  else (StepOutcome.skipped, [])

/-- STEP 5 of `cleanup_infrastructure` with its skip guard: the
database is dropped only when both a name and a user are known. -/
def cleanup_db_step (db_name db_user : String) (env : Env) :
    StepOutcome PgCleanupResult × List Event :=
  if db_name ≠ "" ∧ db_user ≠ "" then
    stepOf (cleanup_postgresql_database db_name db_user env)
  else (StepOutcome.skipped, [])

/-- STEPS 1-6 of `cleanup_infrastructure`, reached once the metadata
derivation has produced a database name and user: PM2 services, nginx
config, SSL certificates, DNS records, PostgreSQL database, project
directory, each inside its own `try/except`, skipping SSL/DNS when no
domain is known and the database when no name/user is known. -/
def cleanup_infrastructure_steps (project_path db_name db_user : String)
    (env : Env) : CleanupReport × List Event :=
  let meta := cleanup_meta project_path env
  let project_name := cleanup_project_name project_path env
  let frontend_domain := cleanup_frontend_domain meta
  let backend_domain := cleanup_backend_domain meta
  let pm2 := cleanup_pm2_services project_name env
  let ngx := stepOf (cleanup_nginx_config project_name env)
  let ssl := cleanup_ssl_step frontend_domain backend_domain env
  let dns := cleanup_dns_step frontend_domain backend_domain env
  let db := cleanup_db_step db_name db_user env
  let dir := cleanup_project_directory project_path env
  ({ project_name := project_name, project_path := project_path,
     pm2 := StepOutcome.done pm2.1, nginx := ngx.1, ssl := ssl.1,
     dns := dns.1, database := db.1, directory := StepOutcome.done dir.1 },
   pm2.2 ++ ngx.2 ++ ssl.2 ++ dns.2 ++ db.2 ++ dir.2)

/-- `app.cleanup_infrastructure`: loads `project.json` (missing or
unparseable → `{}`) and derives the project name, the two bare
subdomains and the database name/user.  When the `"database"` value is
a legacy string or a name-less nonempty dict, the derivation raises an
unguarded `AttributeError` (see `cleanup_db_fields`) which escapes the
function before STEP 1: no cleanup step runs and no report is returned
(`none`).  Otherwise the six steps run unconditionally. -/
def cleanup_infrastructure (project_path : String) (env : Env) :
    Option CleanupReport × List Event :=
  match cleanup_db_fields (cleanup_meta project_path env) with
  | none => (none, [])
  | some dbnu =>
    let r := cleanup_infrastructure_steps project_path dbnu.1 dbnu.2 env
    (some r.1, r.2)

/- ## Environments used to instantiate the theorems -/

/-- A fully successful environment: every path exists, every file
operation and external call succeeds, both ports are open, DNS lookups
find no existing record. -/
def envAllOk : Env :=
  { pathExists := fun _ => true,
    readFile := fun _ => "",
    writeOk := fun _ => true,
    unlinkOk := fun _ => true,
    symlinkOk := fun _ => true,
    rmtreeOk := fun _ => true,
    pm2Start := fun _ => CallOut.ok,
    pm2Stop := fun _ => CallOut.ok,
    pm2Delete := fun _ => CallOut.ok,
    pm2Save := CallOut.ok,
    sqlExec := fun _ => CallOut.ok,
    sqlStdout := fun _ => "",
    sqlStdin := fun _ => CallOut.ok,
    nginxTest := CallOut.ok,
    nginxReload := CallOut.ok,
    systemctlReload := CallOut.ok,
    rmFile := fun _ => CallOut.ok,
    rmTree := fun _ => CallOut.ok,
    portOpen := fun _ => true,
    healthStatusOk := fun _ => true,
    dnsCheckCall := fun _ => CallOut.ok,
    dnsFound := fun _ => false,
    dnsIp := fun _ => none,
    dnsCreateCall := fun _ => CallOut.ok,
    dnsDeleteCall := fun _ => CallOut.ok,
    genPassword := "pw",
    infraMeta := { service_name := none, frontend_app_name := none,
                   ports_frontend := none, ports_backend := none },
    projectJsonParseOk := true,
    projectMeta := emptyProjectMeta }

/-- Environment in which `nginx -t` reports the configuration
invalid. -/
def envTestFail : Env := { envAllOk with nginxTest := CallOut.err }

/-- C4: `reload_nginx` runs the syntax test first (its first action is
always `nginx -t`), issues the reload signal only when the test exits
0, and on a failing test returns `False` having performed no reload at
all. -/
theorem reload_nginx_tests_before_reload (env : Env) :
    (reload_nginx env).2.head? = some Event.nginxTest ∧
    (Event.nginxReload ∈ (reload_nginx env).2 → env.nginxTest = CallOut.ok) ∧
    (env.nginxTest ≠ CallOut.ok →
      reload_nginx env = (false, [Event.nginxTest])) := by
  unfold reload_nginx
  cases h : env.nginxTest <;> simp [h]

/-- Witness for C4: with a failing `nginx -t`, `reload_nginx` returns
`False` and its whole trace is the lone test call; with a passing one
the test is still the first action. -/
theorem reload_nginx_tests_before_reload_witness :
    reload_nginx envTestFail = (false, [Event.nginxTest]) ∧
    (reload_nginx envAllOk).2.head? = some Event.nginxTest :=
  ⟨(reload_nginx_tests_before_reload envTestFail).2.2 (by decide),
   (reload_nginx_tests_before_reload envAllOk).1⟩

/-- C5: `urllib.request.Request` accepts no `timeout` keyword, so
`check_health_endpoint` returns `False` without performing any HTTP
request, for every port, path, timeout and environment; consequently
`verify_deployment` never reports `overall = True`, and
`provision_all` never returns `True`. -/
theorem health_check_always_false :
    (∀ port path timeout env,
      check_health_endpoint port path timeout env = (false, [])) ∧
    (∀ name fport bport env,
      ((verify_deployment name fport bport env).1).overall = false) ∧
    (∀ name path s env, (provision_all name path s env).1 = false) := by
  have hc : ∀ port path timeout env,
      check_health_endpoint port path timeout env = (false, []) := by
    intro port path timeout env
    unfold check_health_endpoint
    rw [if_neg]
    decide
  have hv : ∀ name fport bport env,
      ((verify_deployment name fport bport env).1).overall = false := by
    intro name fport bport env
    simp [verify_deployment, hc]
  refine ⟨hc, hv, ?_⟩
  intro name path s env
  unfold provision_all
  split
  · simp
  · split
    · simp
    · try dsimp only
      split
      · simp
      · try dsimp only
        split
        · simp
        · try dsimp only
          split
          · simp
          · try dsimp only
            split
            · simp_all [hv]
            · simp

/-- C6: `json` is not bound at module scope of
`infrastructure_manager.py`, so `_save_metadata` performs no write (and
returns normally) for every state, and `teardown`, whenever
`project.json` exists, hits the `NameError` before any cleanup step:
it performs no action and returns normally. -/
theorem missing_json_import_noops :
    infraModuleImports.contains "json" = false ∧
    (∀ path s, save_metadata path s = []) ∧
    (∀ name path env, env.pathExists (path ++ "/project.json") = true →
      teardown name path env = []) := by
  have hj : infraModuleImports.contains "json" = false := by decide
  have hm : "json" ∉ infraModuleImports := by decide
  refine ⟨hj, ?_, ?_⟩
  · intro path s
    simp [save_metadata, hm]
  · intro name path env h
    simp [teardown, h, hm]

/-- Witness for C6: tearing down a project whose `project.json` exists
(every path exists in `envAllOk`) performs zero cleanup actions. -/
theorem missing_json_import_noops_witness :
    teardown "demo" "/root/dreampilot/projects/website/demo" envAllOk = [] :=
  missing_json_import_noops.2.2 "demo" "/root/dreampilot/projects/website/demo"
    envAllOk (by decide)

/-- The existence check always performs exactly its one skill call. -/
theorem check_subdomain_exists_trace (sub : String) (d : Option String) (env : Env) :
    (check_subdomain_exists sub d env).2 = [Event.dnsCheck sub] := rfl

/-- The create call of a tier always carries the default domain, the
default server IP and the fixed TTL 14400. -/
theorem create_a_record_trace (sub : String) (env : Env) :
    (create_a_record sub none none 14400 env).2 =
      [Event.dnsCreate sub BASE_DOMAIN SERVER_IP 14400] := rfl

/-- Trace of one DNS tier: the existence check, followed by a create
call (default domain, default IP, TTL 14400) exactly when the check
reported the record absent. -/
theorem provision_dns_tier_trace (sub : String) (env : Env) :
    (provision_dns_tier sub env).2 =
      if (check_subdomain_exists sub none env).1.1 then [Event.dnsCheck sub]
      else [Event.dnsCheck sub,
            Event.dnsCreate sub BASE_DOMAIN SERVER_IP 14400] := by
  unfold provision_dns_tier
  by_cases h : (check_subdomain_exists sub none env).1.1 = true <;>
    simp [h, check_subdomain_exists_trace, create_a_record_trace]

/-- A create call in a tier's trace implies that tier's existence
check came back negative (and the call names that tier's subdomain). -/
theorem provision_dns_tier_create_mem (sub0 sub d i : String) (t : Nat) (env : Env)
    (h : Event.dnsCreate sub d i t ∈ (provision_dns_tier sub0 env).2) :
    (check_subdomain_exists sub none env).1.1 = false := by
  rw [provision_dns_tier_trace] at h
  by_cases hc : (check_subdomain_exists sub0 none env).1.1 = true
  · rw [if_pos hc] at h
    simp at h
  · rw [if_neg hc] at h
    simp at h
    obtain ⟨rfl, -, -, -⟩ := h
    simpa using hc

/-- C9: each DNS tier of `provision_project_dns` checks existence
first (the overall trace starts with the frontend check); a record
that exists and already points at `SERVER_IP` yields success with zero
create calls; a record that exists with a different IP yields
`success = false` together with `exists = true` (the conflict is
surfaced to the caller) and zero create calls — the record is never
overwritten; a missing record is created with the fixed default TTL
14400; and every create call in the whole trace belongs to a subdomain
whose existence check came back negative. -/
theorem dns_check_first_idempotent (name : String) (env : Env) :
    ((provision_project_dns name env).2.head? = some (Event.dnsCheck name)) ∧
    (∀ sub, (check_subdomain_exists sub none env).1 = (true, some SERVER_IP) →
      (provision_dns_tier sub env).1 = (true, true) ∧
      (provision_dns_tier sub env).2.filter Event.isDnsCreate = []) ∧
    (∀ sub ip, ip ≠ SERVER_IP →
      (check_subdomain_exists sub none env).1 = (true, some ip) →
      (provision_dns_tier sub env).1 = (false, true) ∧
      (provision_dns_tier sub env).2.filter Event.isDnsCreate = []) ∧
    (∀ sub, (check_subdomain_exists sub none env).1.1 = false →
      (provision_dns_tier sub env).2 =
        [Event.dnsCheck sub, Event.dnsCreate sub BASE_DOMAIN SERVER_IP 14400]) ∧
    (∀ sub d i t, Event.dnsCreate sub d i t ∈ (provision_project_dns name env).2 →
      (check_subdomain_exists sub none env).1.1 = false) := by
  refine ⟨?_, ?_, ?_, ?_, ?_⟩
  · simp only [provision_project_dns]
    rw [provision_dns_tier_trace]
    by_cases h : (check_subdomain_exists name none env).1.1 = true <;> simp [h]
  · intro sub h
    have h1 : (check_subdomain_exists sub none env).1.1 = true := by rw [h]
    have h2 : (check_subdomain_exists sub none env).1.2 = some SERVER_IP := by rw [h]
    refine ⟨?_, ?_⟩
    · unfold provision_dns_tier
      simp [h1, h2, SERVER_IP]
    · rw [provision_dns_tier_trace, if_pos h1]
      simp [Event.isDnsCreate]
  · intro sub ip hip h
    have h1 : (check_subdomain_exists sub none env).1.1 = true := by rw [h]
    have h2 : (check_subdomain_exists sub none env).1.2 = some ip := by rw [h]
    refine ⟨?_, ?_⟩
    · unfold provision_dns_tier
      by_cases hz : ip = "" <;> simp [h1, h2, hz, hip]
    · rw [provision_dns_tier_trace, if_pos h1]
      simp [Event.isDnsCreate]
  · intro sub h
    rw [provision_dns_tier_trace]
    simp [h]
  · intro sub d i t hmem
    simp only [provision_project_dns, List.mem_append] at hmem
    rcases hmem with hmem | hmem
    · exact provision_dns_tier_create_mem name sub d i t env hmem
    · exact provision_dns_tier_create_mem (name ++ "-api") sub d i t env hmem

/-- Environment for the C9 witness: the subdomain `demo` already has
an A record pointing at `SERVER_IP`, `demo-api` has a record pointing
at a foreign IP, and `other` has no record. -/
def envDns : Env :=
  { envAllOk with
    dnsFound := fun sub => decide (sub = "demo") || decide (sub = "demo-api"),
    dnsIp := fun sub =>
      if sub = "demo" then some SERVER_IP
      else if sub = "demo-api" then some "1.2.3.4" else none }

/-- Witness for C9: in `envDns` the `demo` tier succeeds with zero
create calls, the conflicting `demo-api` tier reports
`(success = false, exists = true)` with zero create calls, and the
absent `other` tier issues exactly one create with TTL 14400. -/
theorem dns_check_first_idempotent_witness :
    (provision_dns_tier "demo" envDns).1 = (true, true) ∧
    (provision_dns_tier "demo" envDns).2.filter Event.isDnsCreate = [] ∧
    (provision_dns_tier "demo-api" envDns).1 = (false, true) ∧
    (provision_dns_tier "demo-api" envDns).2.filter Event.isDnsCreate = [] ∧
    (provision_dns_tier "other" envDns).2 =
      [Event.dnsCheck "other", Event.dnsCreate "other" BASE_DOMAIN SERVER_IP 14400] := by
  obtain ⟨_, h2, h3, h4, _⟩ := dns_check_first_idempotent "demo" envDns
  obtain ⟨ha, hb⟩ := h2 "demo" (by decide)
  obtain ⟨hc, hd⟩ := h3 "demo-api" "1.2.3.4" (by decide) (by decide)
  exact ⟨ha, hb, hc, hd, h4 "other" (by decide)⟩

/-- C3 counterexample: a drop request for the engine system schema
`postgres` (with no `force` flag — none exists) passes no validation
gate and is not rejected: both destructive statements are executed and
the step even reports success. -/
theorem drop_validation_gate_missing_cex :
    (cleanup_postgresql_database "postgres" "admin" envAllOk).2 =
      [Event.execSqlStdin "DROP DATABASE IF EXISTS postgres;\n",
       Event.execSqlStdin "DROP USER IF EXISTS admin;\n"] ∧
    (cleanup_postgresql_database "postgres" "admin" envAllOk).1 =
      some { database_dropped := true, user_dropped := true, errors := [] } := by
  exact ⟨rfl, rfl⟩

/-- C3 amended: neither drop path has a validation gate, a
protected-name set or a `force` parameter.
`DatabaseProvisioner.drop_database_and_user` always derives
`{slug}_db` / `{slug}_user` and unconditionally issues connection
termination plus `IF EXISTS` drops; `app.cleanup_postgresql_database`
always attempts `DROP DATABASE IF EXISTS {db};` for whatever name it
was given (conventional, protected or system schema alike), attempts
the user drop whenever the database drop did not raise, and — thanks to
`IF EXISTS` — reports success when the engine accepts the statements,
so dropping a nonexistent database or user succeeds (idempotent). -/
theorem drop_paths_unconditional_if_exists (slug db user : String) (env : Env) :
    drop_database_and_user slug env =
      [Event.execSql (terminate_sql (slug ++ "_db")),
       Event.execSql ("DROP DATABASE IF EXISTS " ++ (slug ++ "_db") ++ ";"),
       Event.execSql ("DROP USER IF EXISTS " ++ (slug ++ "_user") ++ ";")] ∧
    Event.execSqlStdin ("DROP DATABASE IF EXISTS " ++ db ++ ";\n")
      ∈ (cleanup_postgresql_database db user env).2 ∧
    (env.sqlStdin ("DROP DATABASE IF EXISTS " ++ db ++ ";\n") ≠ CallOut.exn →
      Event.execSqlStdin ("DROP USER IF EXISTS " ++ user ++ ";\n")
        ∈ (cleanup_postgresql_database db user env).2) ∧
    (env.sqlStdin ("DROP DATABASE IF EXISTS " ++ db ++ ";\n") = CallOut.ok →
     env.sqlStdin ("DROP USER IF EXISTS " ++ user ++ ";\n") = CallOut.ok →
     (cleanup_postgresql_database db user env).1 =
       some { database_dropped := true, user_dropped := true, errors := [] }) := by
  refine ⟨rfl, ?_, ?_, ?_⟩
  · simp only [cleanup_postgresql_database]
    split_ifs <;> simp
  · intro h
    simp only [cleanup_postgresql_database]
    split_ifs with h1 h2 <;> simp_all
  · intro h1 h2
    simp only [cleanup_postgresql_database]
    rw [if_neg (by simp [h1]), if_neg (by simp [h2])]
    simp [h1, h2, CallOut.isOk]

/-- Witness for C3's amended claim: dropping the never-created slug
`alreadygone` issues exactly the conventional `IF EXISTS` statements,
and the cleanup path on `alreadygone_db` / `alreadygone_user` (both
nonexistent — psql still exits 0 thanks to `IF EXISTS`) reports
success. -/
theorem drop_paths_unconditional_if_exists_witness :
    drop_database_and_user "alreadygone" envAllOk =
      [Event.execSql (terminate_sql ("alreadygone" ++ "_db")),
       Event.execSql ("DROP DATABASE IF EXISTS " ++ ("alreadygone" ++ "_db") ++ ";"),
       Event.execSql ("DROP USER IF EXISTS " ++ ("alreadygone" ++ "_user") ++ ";")] ∧
    (cleanup_postgresql_database "alreadygone_db" "alreadygone_user" envAllOk).1 =
      some { database_dropped := true, user_dropped := true, errors := [] } := by
  obtain ⟨h1, -, -, h4⟩ :=
    drop_paths_unconditional_if_exists "alreadygone" "alreadygone_db" "alreadygone_user" envAllOk
  exact ⟨h1, h4 rfl rfl⟩

/-- The trace of `reload_nginx` is the lone test, or the test followed
by the reload. -/
theorem reload_nginx_trace_cases (env : Env) :
    (reload_nginx env).2 = [Event.nginxTest] ∨
    (reload_nginx env).2 = [Event.nginxTest, Event.nginxReload] := by
  unfold reload_nginx
  cases env.nginxTest <;> simp

/-- Every action of `remove_config` is one of: unlinking the enabled
symlink, unlinking the config artifact, the nginx config test, the
nginx reload. -/
theorem remove_config_mem (name : String) (env : Env) :
    ∀ e ∈ (remove_config name env).2,
      e = Event.unlinkFile (NGINX_ENABLED_DIR ++ "/" ++ name ++ ".conf") ∨
      e = Event.unlinkFile (NGINX_CONFIG_DIR ++ "/" ++ name ++ ".conf") ∨
      e = Event.nginxTest ∨ e = Event.nginxReload := by
  intro e he
  rcases reload_nginx_trace_cases env with hr | hr <;>
  · simp only [remove_config, hr] at he
    split_ifs at he <;> simp at he <;> tauto

/-- When the `sites-enabled` symlink exists, `remove_config` always
attempts to unlink it (whatever else fails). -/
theorem remove_config_unlink_attempted (name : String) (env : Env)
    (h : env.pathExists (NGINX_ENABLED_DIR ++ "/" ++ name ++ ".conf") = true) :
    Event.unlinkFile (NGINX_ENABLED_DIR ++ "/" ++ name ++ ".conf")
      ∈ (remove_config name env).2 := by
  simp only [remove_config, h]
  split_ifs <;> simp

/-- `drop_database_and_user` always issues exactly its three
statements, whatever the environment does. -/
theorem drop_database_and_user_trace (slug : String) (env : Env) :
    drop_database_and_user slug env =
      [Event.execSql (terminate_sql (slug ++ "_db")),
       Event.execSql ("DROP DATABASE IF EXISTS " ++ (slug ++ "_db") ++ ";"),
       Event.execSql ("DROP USER IF EXISTS " ++ (slug ++ "_user") ++ ";")] := rfl

/-- The rollback trace is, definitionally, the four compensation
segments in order: services, route config, database, ports. -/
theorem rollback_trace (name : String) (s : MState) (env : Env) :
    (rollback name s env).2 =
      rollback_service_events s env ++ (remove_config name env).2
        ++ drop_database_and_user name env
        ++ release_ports_events s.ports_frontend s.ports_backend := rfl

/-- Shape of every rollback action: a pm2 stop/delete, a file unlink,
an nginx test/reload, an SQL statement, or a port release — in
particular never a DNS action, a service start, a config write or an
enable-symlink creation. -/
theorem rollback_mem (name : String) (s : MState) (env : Env) :
    ∀ e ∈ (rollback name s env).2,
      (∃ n, e = Event.pm2Stop n) ∨ (∃ n, e = Event.pm2Delete n) ∨
      (∃ p, e = Event.unlinkFile p) ∨ e = Event.nginxTest ∨
      e = Event.nginxReload ∨ (∃ q, e = Event.execSql q) ∨
      (∃ p, e = Event.releasePort p) := by
  intro e he
  rw [rollback_trace] at he
  simp only [List.mem_append] at he
  rcases he with ((he | he) | he) | he
  · unfold rollback_service_events stop_service delete_service at he
    rw [List.mem_append] at he
    rcases he with he | he <;> split at he <;> simp at he <;>
      rcases he with rfl | rfl
    · exact Or.inl ⟨_, rfl⟩
    · exact Or.inr (Or.inl ⟨_, rfl⟩)
    · exact Or.inl ⟨_, rfl⟩
    · exact Or.inr (Or.inl ⟨_, rfl⟩)
  · rcases remove_config_mem name env e he with rfl | rfl | rfl | rfl
    · exact Or.inr (Or.inr (Or.inl ⟨_, rfl⟩))
    · exact Or.inr (Or.inr (Or.inl ⟨_, rfl⟩))
    · exact Or.inr (Or.inr (Or.inr (Or.inl rfl)))
    · exact Or.inr (Or.inr (Or.inr (Or.inr (Or.inl rfl))))
  · rw [drop_database_and_user_trace] at he
    simp at he
    rcases he with rfl | rfl | rfl <;>
      exact Or.inr (Or.inr (Or.inr (Or.inr (Or.inr (Or.inl ⟨_, rfl⟩)))))
  · unfold release_ports_events at he
    rw [List.mem_append] at he
    rcases he with he | he <;> split at he <;> simp at he <;> subst he <;>
      exact Or.inr (Or.inr (Or.inr (Or.inr (Or.inr (Or.inr ⟨_, rfl⟩)))))

/-- C2: whatever the environment does — pm2 calls raising, unlinks
raising, the nginx test failing, every SQL statement erroring — every
rollback compensation step is still attempted: the stop and the delete
of each registered service appear in the trace, the route-removal step
runs (an existing enabled symlink is always attacked), all three
database-drop statements appear, and each truthy recorded port is
released.  Being a total function of the environment, `rollback` never
lets a compensation failure escape as an exception that would skip the
remaining steps. -/
theorem rollback_attempts_every_compensation (name : String) (s : MState) (env : Env) :
    (∀ n, s.service_name = some n →
      Event.pm2Stop n ∈ (rollback name s env).2 ∧
      Event.pm2Delete n ∈ (rollback name s env).2) ∧
    (∀ n, s.frontend_app_name = some n →
      Event.pm2Stop n ∈ (rollback name s env).2 ∧
      Event.pm2Delete n ∈ (rollback name s env).2) ∧
    (env.pathExists (NGINX_ENABLED_DIR ++ "/" ++ name ++ ".conf") = true →
      Event.unlinkFile (NGINX_ENABLED_DIR ++ "/" ++ name ++ ".conf")
        ∈ (rollback name s env).2) ∧
    Event.execSql ("DROP DATABASE IF EXISTS " ++ (name ++ "_db") ++ ";")
      ∈ (rollback name s env).2 ∧
    Event.execSql ("DROP USER IF EXISTS " ++ (name ++ "_user") ++ ";")
      ∈ (rollback name s env).2 ∧
    (∀ p, s.ports_frontend = some p → p ≠ 0 →
      Event.releasePort p ∈ (rollback name s env).2) ∧
    (∀ p, s.ports_backend = some p → p ≠ 0 →
      Event.releasePort p ∈ (rollback name s env).2) := by
  refine ⟨?_, ?_, ?_, ?_, ?_, ?_, ?_⟩
  · intro n hn
    rw [rollback_trace]
    unfold rollback_service_events stop_service delete_service
    rw [hn]
    simp
  · intro n hn
    rw [rollback_trace]
    unfold rollback_service_events stop_service delete_service
    rw [hn]
    cases s.service_name <;> simp
  · intro h
    rw [rollback_trace]
    have := remove_config_unlink_attempted name env h
    simp [this]
  · rw [rollback_trace, drop_database_and_user_trace]
    simp
  · rw [rollback_trace, drop_database_and_user_trace]
    simp
  · intro p hp hp0
    rw [rollback_trace]
    unfold release_ports_events
    rw [hp]
    simp [pyTruthy, hp0]
  · intro p hp hp0
    rw [rollback_trace]
    unfold release_ports_events
    rw [hp]
    cases pyTruthy s.ports_frontend <;> simp [pyTruthy, hp0]

/-- Environment in which every compensation's external call fails:
pm2 raises, unlinks raise, the nginx test exits nonzero, every SQL
statement exits nonzero. -/
def envAllFail : Env :=
  { envAllOk with
    pm2Stop := fun _ => CallOut.exn,
    pm2Delete := fun _ => CallOut.exn,
    unlinkOk := fun _ => false,
    nginxTest := CallOut.err,
    sqlExec := fun _ => CallOut.err,
    sqlStdin := fun _ => CallOut.err }

/-- A manager state after a full forward pass: both services
registered, both ports recorded. -/
def sProvisioned : MState :=
  { used_ports := {3000, 8010}, ports_frontend := some 3000,
    ports_backend := some 8010, service_name := some "demo-backend",
    frontend_app_name := some "demo-frontend", database_info := none,
    domains_frontend := none, domains_backend := none, dns_results := none }

/-- Witness for C2: rolling back `sProvisioned` under `envAllFail`
(every compensation call failing) still attempts every step: both
service stops and deletes, the symlink unlink, both drop statements
and both port releases all appear in the trace. -/
theorem rollback_attempts_every_compensation_witness :
    Event.pm2Stop "demo-backend" ∈ (rollback "demo" sProvisioned envAllFail).2 ∧
    Event.pm2Delete "demo-backend" ∈ (rollback "demo" sProvisioned envAllFail).2 ∧
    Event.pm2Stop "demo-frontend" ∈ (rollback "demo" sProvisioned envAllFail).2 ∧
    Event.unlinkFile (NGINX_ENABLED_DIR ++ "/" ++ "demo" ++ ".conf")
      ∈ (rollback "demo" sProvisioned envAllFail).2 ∧
    Event.execSql ("DROP DATABASE IF EXISTS " ++ ("demo" ++ "_db") ++ ";")
      ∈ (rollback "demo" sProvisioned envAllFail).2 ∧
    Event.releasePort 3000 ∈ (rollback "demo" sProvisioned envAllFail).2 ∧
    Event.releasePort 8010 ∈ (rollback "demo" sProvisioned envAllFail).2 := by
  obtain ⟨h1, h2, h3, h4, h5, h6, h7⟩ :=
    rollback_attempts_every_compensation "demo" sProvisioned envAllFail
  exact ⟨(h1 "demo-backend" rfl).1, (h1 "demo-backend" rfl).2,
         (h2 "demo-frontend" rfl).1, h3 (by decide), h4,
         h6 3000 rfl (by decide), h7 8010 rfl (by decide)⟩

/-- C1 counterexample: with every call succeeding except `nginx -t`,
the route phase of `provision_all` fails (`reload_nginx` returns
`False`, so the new route never went live) yet forward progress does
not halt: the later DNS phase still runs and the frontend service is
still started. -/
theorem provision_failure_halt_cex :
    (reload_nginx envTestFail).1 = false ∧
    Event.dnsCheck "demo" ∈
      (provision_all "demo" "/root/dreampilot/projects/website/demo"
        (initState ∅) envTestFail).2.2 ∧
    Event.pm2Start "demo-frontend" ∈
      (provision_all "demo" "/root/dreampilot/projects/website/demo"
        (initState ∅) envTestFail).2.2 := by
  refine ⟨rfl, ?_, ?_⟩ <;> decide

/-- Trace of `create_database_and_user`: always exactly the three
statements. -/
theorem create_database_and_user_trace (name : String) (env : Env) :
    (create_database_and_user name env).2 =
      [Event.execSql ("CREATE DATABASE " ++ (name ++ "_db") ++ ";"),
       Event.execSql ("CREATE USER " ++ (name ++ "_user") ++ " WITH PASSWORD \x27"
         ++ env.genPassword ++ "\x27;"),
       Event.execSql ("GRANT ALL PRIVILEGES ON DATABASE " ++ (name ++ "_db")
         ++ " TO " ++ (name ++ "_user") ++ ";")] := rfl

/-- Trace of `create_backend_service`: the one descriptor write. -/
theorem create_backend_service_trace (name : String) (bp : Nat)
    (path : String) (env : Env) :
    (create_backend_service name bp path env).2 =
      [Event.writeFile (path ++ "/backend/ecosystem.config.json")] := rfl

/-- No rollback action is a DNS call, a service start or an
enable-symlink creation. -/
theorem rollback_fwd_free (name : String) (s : MState) (env : Env) :
    ∀ e ∈ (rollback name s env).2,
      Event.isDns e = false ∧ Event.isPm2Start e = false ∧
      Event.isSymlinkFile e = false := by
  intro e he
  rcases rollback_mem name s env e he with
    ⟨n, rfl⟩ | ⟨n, rfl⟩ | ⟨p, rfl⟩ | rfl | rfl | ⟨q, rfl⟩ | ⟨p, rfl⟩ <;>
    exact ⟨rfl, rfl, rfl⟩

/-- The verification outcome is `false` for every run (consequence of
the broken health check), so the only exit from the final phase is the
rollback path. -/
theorem verify_deployment_overall_false (name : String) (f b : Nat) (env : Env) :
    ((verify_deployment name f b env).1).overall = false := by
  have hc : ∀ port pth t e,
      check_health_endpoint port pth t e = (false, ([] : List Event)) := by
    intro port pth t e
    unfold check_health_endpoint
    rw [if_neg]
    decide
  simp [verify_deployment, hc]

/-- `install_config` performs no TCP probe. -/
theorem install_config_no_checkPort (name cfg : String) (env : Env) (p : Nat) :
    Event.checkPort p ∉ (install_config name cfg env).2 := by
  intro he
  simp only [install_config] at he
  split_ifs at he <;> simp_all

/-- `reload_nginx` performs no TCP probe. -/
theorem reload_nginx_no_checkPort (env : Env) (p : Nat) :
    Event.checkPort p ∉ (reload_nginx env).2 := by
  intro he
  rcases reload_nginx_trace_cases env with hr | hr <;> rw [hr] at he <;>
    simp at he

/-- `provision_project_dns` performs no TCP probe. -/
theorem provision_dns_no_checkPort (name : String) (env : Env) (p : Nat) :
    Event.checkPort p ∉ (provision_project_dns name env).2 := by
  intro he
  simp only [provision_project_dns, List.mem_append] at he
  rcases he with he | he <;> rw [provision_dns_tier_trace] at he <;>
    split_ifs at he <;> simp_all

/-- `start_backend_service` performs no TCP probe. -/
theorem start_backend_service_no_checkPort (app bpath : String) (env : Env)
    (p : Nat) : Event.checkPort p ∉ (start_backend_service app bpath env).2 := by
  intro he
  simp only [start_backend_service] at he
  split_ifs at he <;> simp_all

/-- `_rollback` performs no TCP probe: verification never runs after
the rollback has started. -/
theorem rollback_no_checkPort (name : String) (s : MState) (env : Env)
    (p : Nat) : Event.checkPort p ∉ (rollback name s env).2 := by
  intro he
  rcases rollback_mem name s env _ he with
    ⟨n, h⟩ | ⟨n, h⟩ | ⟨q, h⟩ | h | h | ⟨q, h⟩ | ⟨q, h⟩ <;> simp at h

/-- C1 amended: the compensations of `_rollback` run in the fixed
order stop/deregister services → remove route config and reload →
drop database and user → release ports, and never touch DNS.  Phase
failures raised as exceptions halt forward progress and trigger the
rollback: every provisioning attempt returns `False` and its trace
ends with the rollback compensations (the always-failing verification
included); port exhaustion aborts before any other action, so the
whole trace is the rollback; a failing backend-`.env` write or a
failing phase-4 service-descriptor write leaves a trace with no DNS
action, no service start and no route-enabling symlink; a failing
frontend-service creation leaves a trace with no verification probe.
But failures reported by boolean return (nginx config install or
reload, service start, DNS provisioning) are ignored and do not halt
forward progress, contrary to the claim's "any phase". -/
theorem provision_rollback_reverse_order_no_dns (name path : String)
    (s : MState) (env : Env) :
    ((rollback name s env).2 =
      rollback_service_events s env ++ (remove_config name env).2
        ++ drop_database_and_user name env
        ++ release_ports_events s.ports_frontend s.ports_backend) ∧
    (∀ e ∈ (rollback name s env).2, Event.isDns e = false) ∧
    ((provision_all name path s env).1 = false ∧
      ∃ fwd s2, (provision_all name path s env).2.2
        = fwd ++ (rollback name s2 env).2) ∧
    (allocate_frontend_port s.used_ports = none →
      (provision_all name path s env).2.2 = (rollback name s env).2) ∧
    (env.writeOk (path ++ "/backend/.env") = false →
      (provision_all name path s env).1 = false ∧
      ∀ e ∈ (provision_all name path s env).2.2,
        Event.isDns e = false ∧ Event.isPm2Start e = false ∧
        Event.isSymlinkFile e = false) ∧
    (env.writeOk (path ++ "/backend/ecosystem.config.json") = false →
      (provision_all name path s env).1 = false ∧
      ∀ e ∈ (provision_all name path s env).2.2,
        Event.isDns e = false ∧ Event.isPm2Start e = false ∧
        Event.isSymlinkFile e = false) ∧
    (env.pathExists CLAWD_UI_DIST = false →
      (provision_all name path s env).1 = false ∧
      ∀ p, Event.checkPort p ∉ (provision_all name path s env).2.2) := by
  have h3 : (provision_all name path s env).1 = false ∧
      ∃ fwd s2, (provision_all name path s env).2.2
        = fwd ++ (rollback name s2 env).2 := by
    unfold provision_all
    split
    · exact ⟨rfl, [], s, rfl⟩
    · split
      · try dsimp only
        exact ⟨rfl, [], _, rfl⟩
      · try dsimp only
        split
        · exact ⟨rfl, _, _, rfl⟩
        · try dsimp only
          split
          · exact ⟨rfl, _, _, rfl⟩
          · try dsimp only
            split
            · exact ⟨rfl, _, _, rfl⟩
            · try dsimp only
              split
              · rename_i hov
                simp [verify_deployment_overall_false] at hov
              · exact ⟨rfl, _, _, rfl⟩
  refine ⟨rfl, ?_, h3, ?_, ?_, ?_, ?_⟩
  · intro e he
    exact (rollback_fwd_free name s env e he).1
  · intro hnone
    simp only [provision_all, hnone]
  · intro h
    have hcfg : (configure_backend_env path env).1 = false := h
    unfold provision_all
    split
    · exact ⟨rfl, fun e he => rollback_fwd_free name s env e he⟩
    · split
      · exact ⟨rfl, fun e he => rollback_fwd_free name _ env e he⟩
      · try dsimp only
        split
        · refine ⟨rfl, ?_⟩
          intro e he
          simp only [List.mem_append] at he
          rcases he with (he | he) | he
          · rw [create_database_and_user_trace] at he
            simp at he
            rcases he with rfl | rfl | rfl <;> exact ⟨rfl, rfl, rfl⟩
          · simp only [configure_backend_env] at he
            simp at he
            subst he
            exact ⟨rfl, rfl, rfl⟩
          · exact rollback_fwd_free name _ env e he
        · rename_i hcond
          rw [hcfg] at hcond
          simp at hcond
  · intro h
    have hsvc : ∀ bp, (create_backend_service name bp path env).1 = none := by
      intro bp
      simp [create_backend_service, h]
    unfold provision_all
    split
    · exact ⟨rfl, fun e he => rollback_fwd_free name s env e he⟩
    · split
      · exact ⟨rfl, fun e he => rollback_fwd_free name _ env e he⟩
      · try dsimp only
        split
        · refine ⟨rfl, ?_⟩
          intro e he
          simp only [List.mem_append] at he
          rcases he with (he | he) | he
          · rw [create_database_and_user_trace] at he
            simp at he
            rcases he with rfl | rfl | rfl <;> exact ⟨rfl, rfl, rfl⟩
          · simp only [configure_backend_env] at he
            simp at he
            subst he
            exact ⟨rfl, rfl, rfl⟩
          · exact rollback_fwd_free name _ env e he
        · simp only [hsvc]
          refine ⟨by trivial, ?_⟩
          intro e he
          simp only [List.mem_append] at he
          rcases he with ((he | he) | he) | he
          · rw [create_database_and_user_trace] at he
            simp at he
            rcases he with rfl | rfl | rfl <;> exact ⟨rfl, rfl, rfl⟩
          · simp only [configure_backend_env] at he
            simp at he
            subst he
            exact ⟨rfl, rfl, rfl⟩
          · rw [create_backend_service_trace] at he
            simp at he
            subst he
            exact ⟨rfl, rfl, rfl⟩
          · exact rollback_fwd_free name _ env e he
  · intro h
    have hfe : ∀ fp,
        create_frontend_service name fp path env = (none, ([] : List Event)) := by
      intro fp
      simp [create_frontend_service, h]
    unfold provision_all
    split
    · exact ⟨rfl, fun p hp => rollback_no_checkPort name s env p hp⟩
    · split
      · exact ⟨rfl, fun p hp => rollback_no_checkPort name _ env p hp⟩
      · try dsimp only
        split
        · refine ⟨rfl, ?_⟩
          intro p hp
          simp only [List.mem_append] at hp
          rcases hp with (hp | hp) | hp
          · rw [create_database_and_user_trace] at hp
            simp at hp
          · simp only [configure_backend_env] at hp
            simp at hp
          · exact rollback_no_checkPort name _ env p hp
        · try dsimp only
          split
          · refine ⟨rfl, ?_⟩
            intro p hp
            simp only [List.mem_append] at hp
            rcases hp with ((hp | hp) | hp) | hp
            · rw [create_database_and_user_trace] at hp
              simp at hp
            · simp only [configure_backend_env] at hp
              simp at hp
            · rw [create_backend_service_trace] at hp
              simp at hp
            · exact rollback_no_checkPort name _ env p hp
          · try dsimp only
            simp only [hfe]
            refine ⟨by trivial, ?_⟩
            intro p hp
            simp only [List.mem_append] at hp
            rcases hp with
              ((((((((hp | hp) | hp) | hp) | hp) | hp) | hp) | hp) | hp)
            · rw [create_database_and_user_trace] at hp
              simp at hp
            · simp only [configure_backend_env] at hp
              simp at hp
            · rw [create_backend_service_trace] at hp
              simp at hp
            · exact install_config_no_checkPort name _ env p hp
            · exact reload_nginx_no_checkPort env p hp
            · exact provision_dns_no_checkPort name env p hp
            · exact start_backend_service_no_checkPort _ _ env p hp
            · simp at hp
            · exact rollback_no_checkPort name _ env p hp

/-- Environment in which only the backend service-descriptor write of
the demo project fails. -/
def envNoEcoWrite : Env :=
  { envAllOk with
    writeOk := fun p =>
      decide (p ≠ "/root/dreampilot/projects/website/demo/backend/ecosystem.config.json") }

/-- Environment in which the clawd-ui dist directory is missing, so
frontend-service creation raises `FileNotFoundError`. -/
def envNoDist : Env :=
  { envAllOk with pathExists := fun p => decide (p ≠ CLAWD_UI_DIST) }

/-- Witness for C1's amended claim: the rollback of a fully
provisioned state decomposes into the four must-run segments in order,
a rollback action is not a DNS action, a run over a fully used
frontend range produces exactly the rollback trace, and runs whose
phase-4 write fails or whose frontend dist is missing return
`False`. -/
theorem provision_rollback_reverse_order_no_dns_witness :
    ((rollback "demo" sProvisioned envAllOk).2 =
      rollback_service_events sProvisioned envAllOk
        ++ (remove_config "demo" envAllOk).2
        ++ drop_database_and_user "demo" envAllOk
        ++ release_ports_events sProvisioned.ports_frontend
             sProvisioned.ports_backend) ∧
    Event.isDns (Event.pm2Stop "demo-backend") = false ∧
    (provision_all "demo" "/root/dreampilot/projects/website/demo"
        (initState (Finset.range 4000)) envAllOk).2.2 =
      (rollback "demo" (initState (Finset.range 4000)) envAllOk).2 ∧
    (provision_all "demo" "/root/dreampilot/projects/website/demo"
      (initState ∅) envNoEcoWrite).1 = false ∧
    (provision_all "demo" "/root/dreampilot/projects/website/demo"
      (initState ∅) envNoDist).1 = false := by
  have hscan : scanFrom FRONTEND_PORT_MIN (FRONTEND_PORT_MAX - FRONTEND_PORT_MIN)
      (Finset.range 4000) = none := by
    refine (scanFrom_none _ _ _).mpr ?_
    intro q hq1 hq2
    refine Finset.mem_range.mpr ?_
    simp [FRONTEND_PORT_MIN, FRONTEND_PORT_MAX] at hq2
    omega
  have hfull : allocate_frontend_port (Finset.range 4000) = none := by
    rw [allocate_frontend_port, hscan]
  obtain ⟨h1, h2, -, -, -, -, -⟩ := provision_rollback_reverse_order_no_dns "demo"
    "/root/dreampilot/projects/website/demo" sProvisioned envAllOk
  obtain ⟨-, -, -, h4, -, -, -⟩ := provision_rollback_reverse_order_no_dns "demo"
    "/root/dreampilot/projects/website/demo" (initState (Finset.range 4000)) envAllOk
  obtain ⟨-, -, -, -, -, h6, -⟩ := provision_rollback_reverse_order_no_dns "demo"
    "/root/dreampilot/projects/website/demo" (initState ∅) envNoEcoWrite
  obtain ⟨-, -, -, -, -, -, h7⟩ := provision_rollback_reverse_order_no_dns "demo"
    "/root/dreampilot/projects/website/demo" (initState ∅) envNoDist
  exact ⟨h1, h2 (Event.pm2Stop "demo-backend") (by decide),
         h4 hfull, (h6 (by decide)).1, (h7 (by decide)).1⟩

/-- Metadata of a fully provisioned demo project as
`_save_metadata` would have recorded it. -/
def metaDemo : ProjectMeta :=
  { project_name := "demo",
    domains_frontend := "demo.dreambigwithai.com",
    domains_backend := "demo-api.dreambigwithai.com",
    database := MetaDatabase.dict "demo_db" "demo_user",
    frontend_domain := "", backend_domain := "" }

/-- Environment for the teardown scenario: everything succeeds and the
demo metadata is on disk. -/
def envCleanup : Env := { envAllOk with projectMeta := metaDemo }

/-- Environment whose `project.json` carries the legacy string-valued
`"database"` key. -/
def envLegacyDb : Env :=
  { envAllOk with
    projectMeta := { metaDemo with database := MetaDatabase.str "demo_db" } }

/-- C10 counterexample: tearing down the fully provisioned demo
project releases no port at all (the claim's final "then ports" step
does not exist in the code), does delete the DNS records — which the
rollback sequence never touches — and `InfrastructureManager.teardown`
itself performs no cleanup; moreover, on a legacy string-valued
`"database"` key the cleanup raises before its first step, running
nothing and returning no report, so teardown neither executes the
rollback compensation sequence nor proceeds unconditionally. -/
theorem teardown_sequence_cex :
    ((cleanup_infrastructure "/root/dreampilot/projects/website/demo"
        envCleanup).2.filter Event.isReleasePort) = [] ∧
    Event.dnsDelete "demo" ∈
      (cleanup_infrastructure "/root/dreampilot/projects/website/demo"
        envCleanup).2 ∧
    teardown "demo" "/root/dreampilot/projects/website/demo" envCleanup = [] ∧
    cleanup_infrastructure "/root/dreampilot/projects/website/demo" envLegacyDb
      = (none, []) := by
  refine ⟨?_, ?_, ?_, ?_⟩ <;> decide

/-- The database-drop step always attempts the `DROP DATABASE`
statement first, whatever the outcomes. -/
theorem cleanup_postgresql_database_attempts (db user : String) (env : Env) :
    Event.execSqlStdin ("DROP DATABASE IF EXISTS " ++ db ++ ";\n")
      ∈ (cleanup_postgresql_database db user env).2 := by
  simp only [cleanup_postgresql_database]
  split_ifs <;> simp

/-- A wrapped step is never reported as skipped. -/
theorem stepOf_ne_skipped {α : Type} (r : Option α × List Event) :
    (stepOf r).1 ≠ StepOutcome.skipped := by
  rcases r with ⟨r1, evs⟩
  cases r1 <;> simp [stepOf]

/-- No action of the PM2 cleanup step is a port release. -/
theorem cleanup_pm2_services_no_release (name : String) (env : Env) :
    ∀ e ∈ (cleanup_pm2_services name env).2, Event.isReleasePort e = false := by
  intro e he
  cases e <;> try rfl
  simp only [cleanup_pm2_services, cleanup_pm2_tier] at he
  simp at he

/-- No action of the nginx cleanup step is a port release. -/
theorem cleanup_nginx_config_no_release (name : String) (env : Env) :
    ∀ e ∈ (cleanup_nginx_config name env).2, Event.isReleasePort e = false := by
  intro e he
  cases e <;> try rfl
  simp only [cleanup_nginx_config] at he
  repeat' split at he
  all_goals simp_all

/-- No action of the SSL cleanup step is a port release. -/
theorem cleanup_ssl_step_no_release (fd bd : String) (env : Env) :
    ∀ e ∈ (cleanup_ssl_step fd bd env).2, Event.isReleasePort e = false := by
  intro e he
  cases e <;> try rfl
  simp only [cleanup_ssl_step, stepOf, cleanup_ssl_certificates] at he
  repeat' split at he
  all_goals simp_all

/-- No action of the DNS cleanup step is a port release. -/
theorem cleanup_dns_step_no_release (fd bd : String) (env : Env) :
    ∀ e ∈ (cleanup_dns_step fd bd env).2, Event.isReleasePort e = false := by
  intro e he
  cases e <;> try rfl
  simp only [cleanup_dns_step, cleanup_dns_records, cleanup_dns_tier] at he
  repeat' split at he
  all_goals simp_all

/-- No action of the database cleanup step is a port release. -/
theorem cleanup_db_step_no_release (db user : String) (env : Env) :
    ∀ e ∈ (cleanup_db_step db user env).2, Event.isReleasePort e = false := by
  intro e he
  cases e <;> try rfl
  simp only [cleanup_db_step, stepOf, cleanup_postgresql_database] at he
  repeat' split at he
  all_goals simp_all

/-- No action of the directory cleanup step is a port release. -/
theorem cleanup_project_directory_no_release (path : String) (env : Env) :
    ∀ e ∈ (cleanup_project_directory path env).2, Event.isReleasePort e = false := by
  intro e he
  cases e <;> try rfl
  simp only [cleanup_project_directory] at he
  repeat' split at he
  all_goals simp_all

/-- C10 amended: when the metadata's `"database"` value is well formed
(absent, an empty dict, or a dict carrying a nonempty name),
`cleanup_infrastructure` runs its six steps unconditionally and in
order — PM2 services, nginx config, SSL certificates, DNS records,
database, project directory: the trace is exactly that six-segment
concatenation, whatever fails — and returns a structured per-step
report in which the PM2 and directory steps are always recorded as
performed, and the database step, whenever a name and user are known,
is not skipped and its drop statement is attempted even if every
earlier step's calls failed.  But the sequence is not the rollback
sequence — no port is ever released — and on a legacy string-valued
`"database"` key, or a name-less nonempty dict, the unguarded
`AttributeError` aborts the function before STEP 1: no step runs and
no report is returned. -/
theorem cleanup_unconditional_structured (path : String) (env : Env) :
    (∀ st, (cleanup_meta path env).database = MetaDatabase.str st →
      cleanup_infrastructure path env = (none, [])) ∧
    (∀ u, (cleanup_meta path env).database = MetaDatabase.dict "" u →
      cleanup_infrastructure path env = (none, [])) ∧
    (∀ nm us, cleanup_db_fields (cleanup_meta path env) = some (nm, us) →
      (cleanup_infrastructure path env).2 =
        (cleanup_pm2_services (cleanup_project_name path env) env).2
          ++ (cleanup_nginx_config (cleanup_project_name path env) env).2
          ++ (cleanup_ssl_step (cleanup_frontend_domain (cleanup_meta path env))
                (cleanup_backend_domain (cleanup_meta path env)) env).2
          ++ (cleanup_dns_step (cleanup_frontend_domain (cleanup_meta path env))
                (cleanup_backend_domain (cleanup_meta path env)) env).2
          ++ (cleanup_db_step nm us env).2
          ++ (cleanup_project_directory path env).2 ∧
      (cleanup_infrastructure path env).1 =
        some (cleanup_infrastructure_steps path nm us env).1 ∧
      (cleanup_infrastructure_steps path nm us env).1.pm2 =
        StepOutcome.done
          (cleanup_pm2_services (cleanup_project_name path env) env).1 ∧
      (cleanup_infrastructure_steps path nm us env).1.directory =
        StepOutcome.done (cleanup_project_directory path env).1 ∧
      (nm ≠ "" → us ≠ "" →
        (cleanup_infrastructure_steps path nm us env).1.database
          ≠ StepOutcome.skipped ∧
        Event.execSqlStdin ("DROP DATABASE IF EXISTS " ++ nm ++ ";\n")
          ∈ (cleanup_infrastructure path env).2)) ∧
    (∀ e ∈ (cleanup_infrastructure path env).2,
      Event.isReleasePort e = false) := by
  refine ⟨?_, ?_, ?_, ?_⟩
  · intro st h
    have hn : cleanup_db_fields (cleanup_meta path env) = none := by
      simp [cleanup_db_fields, h]
    simp [cleanup_infrastructure, hn]
  · intro u h
    have hn : cleanup_db_fields (cleanup_meta path env) = none := by
      simp [cleanup_db_fields, h]
    simp [cleanup_infrastructure, hn]
  · intro nm us h
    have hsome : cleanup_infrastructure path env =
        (some (cleanup_infrastructure_steps path nm us env).1,
         (cleanup_infrastructure_steps path nm us env).2) := by
      simp only [cleanup_infrastructure, h]
    refine ⟨?_, ?_, rfl, rfl, ?_⟩
    · rw [hsome]
      rfl
    · rw [hsome]
    · intro h1 h2
      constructor
      · show (cleanup_db_step nm us env).1 ≠ StepOutcome.skipped
        rw [cleanup_db_step, if_pos ⟨h1, h2⟩]
        exact stepOf_ne_skipped _
      · have hm : Event.execSqlStdin ("DROP DATABASE IF EXISTS " ++ nm ++ ";\n")
            ∈ (cleanup_db_step nm us env).2 := by
          rw [cleanup_db_step, if_pos ⟨h1, h2⟩]
          exact cleanup_postgresql_database_attempts _ _ env
        have hdec : (cleanup_infrastructure path env).2 =
          (cleanup_pm2_services (cleanup_project_name path env) env).2
            ++ (cleanup_nginx_config (cleanup_project_name path env) env).2
            ++ (cleanup_ssl_step (cleanup_frontend_domain (cleanup_meta path env))
                  (cleanup_backend_domain (cleanup_meta path env)) env).2
            ++ (cleanup_dns_step (cleanup_frontend_domain (cleanup_meta path env))
                  (cleanup_backend_domain (cleanup_meta path env)) env).2
            ++ (cleanup_db_step nm us env).2
            ++ (cleanup_project_directory path env).2 := by
          rw [hsome]
          rfl
        rw [hdec]
        simp only [List.mem_append]
        tauto
  · intro e he
    rcases hdb : cleanup_db_fields (cleanup_meta path env) with _ | dbnu
    · rw [show (cleanup_infrastructure path env).2 = [] by
        simp [cleanup_infrastructure, hdb]] at he
      simp at he
    · have hdec2 : (cleanup_infrastructure path env).2 =
        (cleanup_pm2_services (cleanup_project_name path env) env).2
          ++ (cleanup_nginx_config (cleanup_project_name path env) env).2
          ++ (cleanup_ssl_step (cleanup_frontend_domain (cleanup_meta path env))
                (cleanup_backend_domain (cleanup_meta path env)) env).2
          ++ (cleanup_dns_step (cleanup_frontend_domain (cleanup_meta path env))
                (cleanup_backend_domain (cleanup_meta path env)) env).2
          ++ (cleanup_db_step dbnu.1 dbnu.2 env).2
          ++ (cleanup_project_directory path env).2 := by
        simp only [cleanup_infrastructure, hdb]
        rfl
      rw [hdec2] at he
      simp only [List.mem_append] at he
      rcases he with ((((h | h) | h) | h) | h) | h
      · exact cleanup_pm2_services_no_release _ env e h
      · exact cleanup_nginx_config_no_release _ env e h
      · exact cleanup_ssl_step_no_release _ _ env e h
      · exact cleanup_dns_step_no_release _ _ env e h
      · exact cleanup_db_step_no_release _ _ env e h
      · exact cleanup_project_directory_no_release _ env e h

/-- Witness for C10's amended claim: for the demo teardown the PM2
step is recorded as done, the database step is not skipped, its drop
statement is attempted, a concrete trace element is not a port
release, and the legacy-string metadata aborts before any step. -/
theorem cleanup_unconditional_structured_witness :
    ((cleanup_infrastructure_steps "/root/dreampilot/projects/website/demo"
        "demo_db" "demo_user" envCleanup).1.pm2 =
      StepOutcome.done (cleanup_pm2_services
        (cleanup_project_name "/root/dreampilot/projects/website/demo" envCleanup)
        envCleanup).1) ∧
    ((cleanup_infrastructure_steps "/root/dreampilot/projects/website/demo"
        "demo_db" "demo_user" envCleanup).1.database ≠ StepOutcome.skipped) ∧
    Event.execSqlStdin ("DROP DATABASE IF EXISTS " ++ "demo_db" ++ ";\n")
      ∈ (cleanup_infrastructure "/root/dreampilot/projects/website/demo"
          envCleanup).2 ∧
    cleanup_infrastructure "/root/dreampilot/projects/website/demo" envLegacyDb
      = (none, []) ∧
    Event.isReleasePort Event.pm2Save = false := by
  obtain ⟨-, -, hsome, hrel⟩ := cleanup_unconditional_structured
    "/root/dreampilot/projects/website/demo" envCleanup
  obtain ⟨hstr2, -, -, -⟩ := cleanup_unconditional_structured
    "/root/dreampilot/projects/website/demo" envLegacyDb
  obtain ⟨-, -, hpm2, -, hdbpart⟩ := hsome "demo_db" "demo_user" (by decide)
  obtain ⟨hd1, hd2⟩ := hdbpart (by decide) (by decide)
  exact ⟨hpm2, hd1, hd2, hstr2 "demo_db" (by decide),
         hrel Event.pm2Save (by decide)⟩
